import Mathlib

/-!
Verification of the SMS-gateway control plane (backend/app) against its
natural-language specification.

Shallow embedding conventions:
* `uuid.UUID` values are modelled as `Nat`; freshly generated uuids
  (`uuid.uuid4()`) are passed in as explicit parameters.
* Python `datetime` values are modelled by `PyDateTime`
  (calendar fields that the code inspects, plus an opaque `tick`
  distinguishing instants); where the code only does `timedelta`
  arithmetic and comparisons (subscription periods, `sent_at`) an `Int`
  time-stamp is used instead.
* Python `int` counters are modelled as `Int`.
* The relational store is a `Db` record of lists of rows; SQLAlchemy
  `session.add/commit` of a mutated row becomes a keyed map-update.
* HTTP exceptions become an `ApiError` sum; raising aborts the request
  with the store unchanged, which the embedding expresses by returning
  the incoming store alongside the error.
* External library calls (the HMAC primitive, the payment provider
  charge, the HTTP client) are parameters of the embedded functions.
-/

namespace Ender

/-- Calendar fields of a Python `datetime`: the components the code reads
(`.year`, `.month`, `.day`), plus an opaque `tick` so that distinct
instants on the same day stay distinguishable. -/
structure PyDateTime where
  year : Int
  month : Int
  day : Int
  tick : Int
  deriving Repr, DecidableEq

/-- A Python `datetime.date` (result of `_calculate_reset_date` before
ISO stringification, which the embedding elides). -/
structure PyDate where
  year : Int
  month : Int
  day : Int
  deriving Repr, DecidableEq

/-- The runtime settings the embedded code reads
(`app/core/config.py`: `QUOTA_RESET_DAY`, `DEFAULT_PLAN`). -/
structure Settings where
  QUOTA_RESET_DAY : Int
  DEFAULT_PLAN : String
  deriving Repr, DecidableEq

/-! ## Data model (`app/models.py`) -/

/-- `UserPlan` row. -/
structure UserPlan where
  id : Nat
  name : String
  max_sms_per_month : Int
  max_devices : Int
  price : Int
  price_yearly : Int
  deriving Repr, DecidableEq

/-- `UserQuota` row (keyed by its unique `user_id`). -/
structure UserQuota where
  user_id : Nat
  plan_id : Nat
  sms_sent_this_month : Int
  devices_registered : Int
  last_reset_date : Option PyDateTime
  deriving Repr, DecidableEq

/-- `SMSDevice` row (the fields the embedded code reads). -/
structure SMSDevice where
  id : Nat
  user_id : Nat
  device_status : String
  deriving Repr, DecidableEq

/-- `SMSMessage` row.  `created_at` is carried as its ISO rendering
(`Option String`) because the embedded code only ever serializes it;
`sent_at`/`delivered_at` are `Int` instants. -/
structure SMSMessage where
  id : Nat
  user_id : Nat
  device_id : Option Nat
  batch_id : Option Nat
  to_number : String  -- source column name: to
  from_number : Option String
  body : String
  status : String
  message_type : String
  error_message : Option String
  webhook_sent : Bool
  created_at : Option String
  sent_at : Option Int
  delivered_at : Option Int
  deriving Repr, DecidableEq

/-- `User` row (the fields the embedded routes read). -/
structure User where
  id : Nat
  is_superuser : Bool
  deriving Repr, DecidableEq

/-- The detail object carried by the 429 quota exception
(`QuotaService.check_sms_quota`). -/
structure QuotaExceededDetail where
  error : String
  message : String
  quota_type : String
  limit : Int
  used : Int
  available : Int
  reset_date : Option PyDate
  upgrade_url : String
  deriving Repr, DecidableEq

/-- `fastapi.HTTPException` as raised by the embedded code. -/
inductive ApiError where
  | quotaExceeded (status_code : Int) (detail : QuotaExceededDetail)
  | httpDetail (status_code : Int) (detail : String)
  deriving Repr, DecidableEq

/-- The relational store: one list of rows per table the embedded
operations touch.  `users` holds the user rows. -/
structure Db where
  users : List User
  plans : List UserPlan
  quotas : List UserQuota
  devices : List SMSDevice
  messages : List SMSMessage
  deriving Repr, DecidableEq

/-! ## `crud.create_sms_messages` (`app/crud.py:129-174`) -/

/-- Input schema `SMSMessageCreate` (`recipients`, `body`, optional
`device_id`). -/
structure SMSMessageCreate where
  recipients : List String
  body : String
  device_id : Option Nat
  deriving Repr, DecidableEq

/-- One iteration of the `for i, recipient in enumerate(...)` loop:
build the row for recipient `r` at index `i`.  `devices.get?` is `some`
exactly when `devices` is non-empty (Python truthiness of the list),
in which case the row is `assigned` to `devices[i % len(devices)]`;
otherwise the row is `queued` with no device. -/
def build_sms_message (msg_body : String) (batch_id : Option Nat) (user_id : Nat)
    (devices : List SMSDevice) (fresh_id : Nat → Nat) (i : Nat) (r : String) :
    SMSMessage :=
  match devices.get? (i % devices.length) with
  | some device =>
      { id := fresh_id i, user_id := user_id, device_id := some device.id
        batch_id := batch_id, to_number := r, from_number := none, body := msg_body
        status := "assigned", message_type := "outgoing", error_message := none
        webhook_sent := false, created_at := none, sent_at := none
        delivered_at := none }
  | none =>
      { id := fresh_id i, user_id := user_id, device_id := none
        batch_id := batch_id, to_number := r, from_number := none, body := msg_body
        status := "queued", message_type := "outgoing", error_message := none
        webhook_sent := false, created_at := none, sent_at := none
        delivered_at := none }

/-- The enumerate loop of `create_sms_messages`, starting at index `i`. -/
def build_sms_messages (msg_body : String) (batch_id : Option Nat) (user_id : Nat)
    (devices : List SMSDevice) (fresh_id : Nat → Nat) :
    Nat → List String → List SMSMessage
  | _, [] => []
  | i, r :: rest =>
      build_sms_message msg_body batch_id user_id devices fresh_id i r ::
        build_sms_messages msg_body batch_id user_id devices fresh_id (i + 1) rest

/-- `crud.create_sms_messages`: generate a `batch_id` iff more than one
recipient, then create one row per recipient (round-robin over `devices`
when non-empty, else queued).  `fresh_batch` stands for `uuid.uuid4()`
and `fresh_id i` for the uuid of the `i`-th created row. -/
def create_sms_messages (message_in : SMSMessageCreate) (user_id : Nat)
    (devices : List SMSDevice) (fresh_batch : Nat) (fresh_id : Nat → Nat) :
    List SMSMessage :=
  let batch_id : Option Nat :=
    if 1 < message_in.recipients.length then some fresh_batch else none
  build_sms_messages message_in.body batch_id user_id devices fresh_id 0
    message_in.recipients

/-- `SMSService.distribute_messages`
(`app/services/sms_service.py:132-146`): round-robin assignment of an
existing message list over a non-empty device list; a no-op when
`devices` is empty. -/
def distribute_messages_go (devices : List SMSDevice) :
    Nat → List SMSMessage → List SMSMessage
  | _, [] => []
  | i, m :: rest =>
      (match devices.get? (i % devices.length) with
       | some device => { m with device_id := some device.id, status := "assigned" }
       | none => m) :: distribute_messages_go devices (i + 1) rest

/-- `SMSService.distribute_messages`: early-return when `devices` is
empty, else assign message `i` to `devices[i % len(devices)]` with
status `assigned`. -/
def distribute_messages (messages : List SMSMessage) (devices : List SMSDevice) :
    List SMSMessage :=
  if devices.isEmpty then messages
  else distribute_messages_go devices 0 messages

/-! ## Quota service (`app/services/quota_service.py`) -/

/-- Row lookups (`session.get` / relationship traversal / `select().first()`),
modelled as first-match searches keyed on the unique column. -/
def find_quota (quotas : List UserQuota) (user_id : Nat) : Option UserQuota :=
  quotas.find? (fun q => q.user_id == user_id)

def find_plan (plans : List UserPlan) (plan_id : Nat) : Option UserPlan :=
  plans.find? (fun p => p.id == plan_id)

def find_user (users : List User) (user_id : Nat) : Option User :=
  users.find? (fun u => u.id == user_id)

/-- Committing a mutation of the quota row fetched for `user_id`. -/
def update_quota (quotas : List UserQuota) (user_id : Nat)
    (f : UserQuota → UserQuota) : List UserQuota :=
  quotas.map (fun q => if q.user_id == user_id then f q else q)

/-- `calendar.isleap`. -/
def is_leap_year (y : Int) : Bool :=
  (y % 4 == 0 && y % 100 != 0) || y % 400 == 0

/-- `calendar.monthrange(y, m)[1]`: the last day of the month. -/
def monthrange_last_day (y m : Int) : Int :=
  if m = 2 then (if is_leap_year y then 29 else 28)
  else if m = 4 || m = 6 || m = 9 || m = 11 then 30
  else 31

/-- `QuotaService._calculate_reset_date`: the configured reset day in the
next calendar month, clamped via `min` to that month's last day when
`date(...)` would raise `ValueError` (the embedding elides the final
`isoformat()` stringification and returns the date itself). -/
def calculate_reset_date (s : Settings) (last_reset_date : PyDateTime) : PyDate :=
  let next_year :=
    if last_reset_date.month = 12 then last_reset_date.year + 1 else last_reset_date.year
  let next_month := if last_reset_date.month = 12 then 1 else last_reset_date.month + 1
  if 1 ≤ s.QUOTA_RESET_DAY ∧ s.QUOTA_RESET_DAY ≤ monthrange_last_day next_year next_month
  then { year := next_year, month := next_month, day := s.QUOTA_RESET_DAY }
  else { year := next_year, month := next_month
         day := min s.QUOTA_RESET_DAY (monthrange_last_day next_year next_month) }

/-- Substring test on character lists, for the `ilike` pattern
`%plan_name%`. -/
def is_substring : List Char → List Char → Bool
  | needle, [] => needle.isEmpty
  | needle, c :: t => needle.isPrefixOf (c :: t) || is_substring needle t

/-- `QuotaService._create_default_quota`: look the default plan up by
case-insensitive name containment (`ilike`), create the hard-coded Free
plan when absent, then insert a zeroed quota with
`last_reset_date = now`. -/
def create_default_quota (s : Settings) (db : Db) (user_id : Nat)
    (now : PyDateTime) (fresh_plan_id : Nat) : Db × UserQuota :=
  let plan_name := s.DEFAULT_PLAN.toLower
  match db.plans.find? (fun p => is_substring plan_name.toList p.name.toLower.toList) with
  | some plan =>
      let quota : UserQuota :=
        { user_id := user_id, plan_id := plan.id, sms_sent_this_month := 0
          devices_registered := 0, last_reset_date := some now }
      ({ db with quotas := db.quotas ++ [quota] }, quota)
  | none =>
      let plan : UserPlan :=
        { id := fresh_plan_id, name := "Free", max_sms_per_month := 50
          max_devices := 1, price := 0, price_yearly := 0 }
      let quota : UserQuota :=
        { user_id := user_id, plan_id := plan.id, sms_sent_this_month := 0
          devices_registered := 0, last_reset_date := some now }
      ({ db with plans := db.plans ++ [plan], quotas := db.quotas ++ [quota] }, quota)

/-- `QuotaService._get_or_create_quota`: 404 when the user row is
missing, else the user's quota, creating the default one if absent. -/
def get_or_create_quota (s : Settings) (db : Db) (user_id : Nat)
    (now : PyDateTime) (fresh_plan_id : Nat) : Except ApiError (Db × UserQuota) :=
  match find_user db.users user_id with
  | none => .error (.httpDetail 404 "Usuario no encontrado")
  | some _ =>
      match find_quota db.quotas user_id with
      | some q => .ok (db, q)
      | none => .ok (create_default_quota s db user_id now fresh_plan_id)

/-- `QuotaService.check_sms_quota` (`quota_service.py:68-95`): raise 429
with the structured quota payload when `sms_sent_this_month + count`
would exceed the plan limit; return `False` when the plan row is
missing, `True` otherwise.  The store is returned alongside because
`_create_default_quota` commits. -/
def check_sms_quota (s : Settings) (db : Db) (user_id : Nat) (count : Int)
    (now : PyDateTime) (fresh_plan_id : Nat) : Db × Except ApiError Bool :=
  match get_or_create_quota s db user_id now fresh_plan_id with
  | .error e => (db, .error e)
  | .ok (db1, quota) =>
      match find_plan db1.plans quota.plan_id with
      | none => (db1, .ok false)
      | some plan =>
          if quota.sms_sent_this_month + count > plan.max_sms_per_month then
            (db1, .error (.quotaExceeded 429
              { error := "quota_exceeded"
                message := "Solo puedes enviar "
                  ++ toString (plan.max_sms_per_month - quota.sms_sent_this_month)
                  ++ " SMS más este mes"
                quota_type := "sms_monthly"
                limit := plan.max_sms_per_month
                used := quota.sms_sent_this_month
                available := plan.max_sms_per_month - quota.sms_sent_this_month
                reset_date := quota.last_reset_date.map (calculate_reset_date s)
                upgrade_url := "/api/v1/sms/plans" }))
          else (db1, .ok true)

/-- `QuotaService.increment_sms_count`: bump the user's monthly counter
by `count` and commit. -/
def increment_sms_count (s : Settings) (db : Db) (user_id : Nat) (count : Int)
    (now : PyDateTime) (fresh_plan_id : Nat) : Db × Except ApiError Unit :=
  match get_or_create_quota s db user_id now fresh_plan_id with
  | .error e => (db, .error e)
  | .ok (db1, _) =>
      ({ db1 with quotas := (update_quota db1.quotas user_id
          (fun q => { q with sms_sent_this_month := q.sms_sent_this_month + count })) },
        .ok ())

/-- `QuotaService.increment_device_count`. -/
def increment_device_count (s : Settings) (db : Db) (user_id : Nat)
    (now : PyDateTime) (fresh_plan_id : Nat) : Db × Except ApiError Unit :=
  match get_or_create_quota s db user_id now fresh_plan_id with
  | .error e => (db, .error e)
  | .ok (db1, _) =>
      ({ db1 with quotas := (update_quota db1.quotas user_id
          (fun q => { q with devices_registered := q.devices_registered + 1 })) },
        .ok ())

/-- `QuotaService.decrement_device_count`
(`quota_service.py:138-145`): decrement only when the counter is
strictly positive, else leave the row untouched. -/
def decrement_device_count (s : Settings) (db : Db) (user_id : Nat)
    (now : PyDateTime) (fresh_plan_id : Nat) : Db × Except ApiError Unit :=
  match get_or_create_quota s db user_id now fresh_plan_id with
  | .error e => (db, .error e)
  | .ok (db1, quota) =>
      if quota.devices_registered > 0 then
        ({ db1 with quotas := (update_quota db1.quotas user_id
            (fun q => { q with devices_registered := q.devices_registered - 1 })) },
          .ok ())
      else (db1, .ok ())

/-! ## The bulk-send route (`app/api/routes/sms.py:60-97`) -/

/-- Input schema `SMSBulkCreate`. -/
structure SMSBulkCreate where
  recipients : List String
  body : String
  device_id : Option Nat
  deriving Repr, DecidableEq

/-- The success response of `POST /sms/send-bulk`. -/
structure SendBulkResponse where
  total_recipients : Nat
  message_ids : List Nat
  deriving Repr, DecidableEq

/-- `send_bulk_sms`: quota check (429 aborts before anything is
written), then one `SMSMessage` row per recipient, then the counter
increment by `len(recipients)`.  Message rows are persisted via
`crud.create_sms_messages` with no device list, matching the
`crud` layer that exists in the source tree. -/
def send_bulk_sms (s : Settings) (db : Db) (user_id : Nat) (bulk : SMSBulkCreate)
    (now : PyDateTime) (fresh_plan_id : Nat) (fresh_batch : Nat)
    (fresh_id : Nat → Nat) : Db × Except ApiError SendBulkResponse :=
  match check_sms_quota s db user_id (bulk.recipients.length : Int) now fresh_plan_id with
  | (db1, .error e) => (db1, .error e)
  | (db1, .ok _) =>
      let msgs := create_sms_messages ⟨bulk.recipients, bulk.body, bulk.device_id⟩
        user_id [] fresh_batch fresh_id
      let db2 := { db1 with messages := db1.messages ++ msgs }
      match increment_sms_count s db2 user_id (bulk.recipients.length : Int) now
          fresh_plan_id with
      | (db3, .error e) => (db3, .error e)
      | (db3, .ok _) =>
          (db3, .ok { total_recipients := bulk.recipients.length
                      message_ids := msgs.map SMSMessage.id })

/-! ## Plan upgrade route (`app/api/routes/sms.py:183-222`) -/

/-- Input schema `PlanUpgrade`. -/
structure PlanUpgrade where
  plan_id : Nat
  deriving Repr, DecidableEq

/-- `PUT /sms/quota/upgrade`: superuser-only; 404 on an unknown plan;
otherwise point the quota (created on demand) at the new plan.  The
monthly counter is carried over unchanged. -/
def upgrade_plan (s : Settings) (db : Db) (current_user : User)
    (upgrade_in : PlanUpgrade) (now : PyDateTime) (fresh_plan_id : Nat) :
    Db × Except ApiError String :=
  if !current_user.is_superuser then
    (db, .error (.httpDetail 403 "The user does not have enough privileges"))
  else
    match find_plan db.plans upgrade_in.plan_id with
    | none => (db, .error (.httpDetail 404 "Plan no encontrado"))
    | some plan =>
        match find_quota db.quotas current_user.id with
        | some _ =>
            ({ db with quotas := (update_quota db.quotas current_user.id
                (fun q => { q with plan_id := upgrade_in.plan_id })) }, .ok plan.name)
        | none =>
            let created := create_default_quota s db current_user.id now fresh_plan_id
            ({ created.1 with quotas := (update_quota created.1.quotas current_user.id
                (fun q => { q with plan_id := upgrade_in.plan_id })) }, .ok plan.name)

/-! ## Monthly reset sweep
(`app/services/sms_service.py:329-345`, `app/tasks/sms_tasks.py:245-263`) -/

/-- The per-row body of `reset_monthly_quotas`: both source variants
test the literal `quota.last_reset_date.day == 1`. -/
def reset_monthly_quota_row (now : PyDateTime) (q : UserQuota) : UserQuota :=
  match q.last_reset_date with
  | some d =>
      if d.day = 1 then
        { q with sms_sent_this_month := 0, last_reset_date := some now }
      else q
  | none => q

/-- `reset_monthly_quotas`: sweep every quota row. -/
def reset_monthly_quotas (db : Db) (now : PyDateTime) : Db :=
  { db with quotas := db.quotas.map (reset_monthly_quota_row now) }

/-! ## `SubscriptionService._update_user_quota`
(`app/services/subscription_service.py:565-585`) -/

/-- Point the quota at the newly activated plan and zero the monthly
counter; create a zeroed quota when none exists. -/
def update_user_quota (db : Db) (user_id plan_id : Nat) (now : PyDateTime) : Db :=
  match find_quota db.quotas user_id with
  | some _ =>
      { db with quotas := (update_quota db.quotas user_id (fun q =>
          { q with plan_id := plan_id, sms_sent_this_month := 0
                   last_reset_date := some now })) }
  | none =>
      let quota : UserQuota :=
        { user_id := user_id, plan_id := plan_id, sms_sent_this_month := 0,
          devices_registered := 0, last_reset_date := some now }
      { db with quotas := db.quotas ++ [quota] }

/-- The data-model invariant of the spec:
`Quota.sms_sent_this_month <= Plan.max_sms_per_month` for the plan each
quota row points to (vacuous for a dangling plan pointer). -/
def quota_invariant (db : Db) : Prop :=
  ∀ q ∈ db.quotas, ∀ p, find_plan db.plans q.plan_id = some p →
    q.sms_sent_this_month ≤ p.max_sms_per_month

/-! ## Subscription renewal
(`app/services/subscription_service.py:423-509`) -/

inductive SubscriptionStatus where
  | pending
  | active
  | past_due
  | canceled
  | expired
  deriving Repr, DecidableEq

inductive BillingCycle where
  | monthly
  | yearly
  deriving Repr, DecidableEq

inductive PaymentStatus where
  | pending
  | completed
  | failed
  | refunded
  deriving Repr, DecidableEq

/-- `Subscription` row (fields `process_renewal` reads or writes).
Period bounds are `Int` time-stamps; `timedelta(days = n)` is `+ n` at
day granularity. -/
structure Subscription where
  id : Nat
  user_id : Nat
  plan_id : Nat
  billing_cycle : BillingCycle
  status : SubscriptionStatus
  cancel_at_period_end : Bool
  provider_user_uuid : Option String
  current_period_start : Int
  current_period_end : Int
  deriving Repr, DecidableEq

/-- `Payment` row. -/
structure Payment where
  id : Nat
  subscription_id : Nat
  amount : Int
  currency : String
  status : PaymentStatus
  provider : String
  provider_transaction_id : Option String
  period_start : Int
  period_end : Int
  paid_at : Option Int
  deriving Repr, DecidableEq

/-- Outcome of `payment_service.charge_authorized_user` (an external
provider call, hence a parameter of the embedding). -/
structure ChargeResult where
  success : Bool
  transaction_id : Option String
  deriving Repr, DecidableEq

/-- What `process_renewal` leaves behind: either an HTTP error (with
the possibly mutated subscription row — the `cancel_at_period_end`
branch commits the cancellation before raising) or the committed
subscription/payment pair. -/
inductive RenewalResult where
  | httpError (sub : Subscription) (e : ApiError)
  | processed (sub : Subscription) (payment : Payment)
  deriving Repr, DecidableEq

/-- `timedelta(days=30)` for monthly, `timedelta(days=365)` for
yearly. -/
def renewal_period_days (cycle : BillingCycle) : Int :=
  match cycle with
  | .monthly => 30
  | .yearly => 365

/-- The charged amount: `plan.price` monthly, else `price_yearly` when
positive, else `price * 12`. -/
def renewal_amount (plan : UserPlan) (cycle : BillingCycle) : Int :=
  match cycle with
  | .monthly => plan.price
  | .yearly => if plan.price_yearly > 0 then plan.price_yearly else plan.price * 12

/-- `SubscriptionService.process_renewal`: guards (authorization,
ACTIVE status, pending cancellation), then a PENDING payment covering
`[current_period_end, current_period_end + 30/365 days]`; a successful
charge completes the payment (transaction id, `paid_at`) and shifts the
subscription period, a failed charge records a FAILED payment and marks
the subscription PAST_DUE.  `plan` is the loaded `subscription.plan`
relationship and `wall_clock` stands for `datetime.now(UTC)`. -/
def process_renewal (sub : Subscription) (plan : UserPlan) (charge : ChargeResult)
    (provider_name : String) (fresh_payment_id : Nat) (wall_clock : Int) :
    RenewalResult :=
  if sub.provider_user_uuid = none then
    .httpError sub (.httpDetail 400 "No payment authorization")
  else if sub.status ≠ SubscriptionStatus.active then
    .httpError sub (.httpDetail 400 "Subscription not active")
  else if sub.cancel_at_period_end then
    .httpError { sub with status := SubscriptionStatus.canceled }
      (.httpDetail 400 "Subscription canceled")
  else
    let now := sub.current_period_end
    let period_end := now + renewal_period_days sub.billing_cycle
    let payment : Payment :=
      { id := fresh_payment_id, subscription_id := sub.id
        amount := renewal_amount plan sub.billing_cycle, currency := "USD"
        status := PaymentStatus.pending, provider := provider_name
        provider_transaction_id := none, period_start := now
        period_end := period_end, paid_at := none }
    if charge.success then
      .processed
        { sub with current_period_start := now, current_period_end := period_end }
        { payment with
            status := PaymentStatus.completed
            provider_transaction_id := charge.transaction_id
            paid_at := some wall_clock }
    else
      .processed { sub with status := SubscriptionStatus.past_due }
        { payment with status := PaymentStatus.failed }

/-! ## Webhook deliverer (`app/services/webhook_service.py`) -/

/-- `WebhookConfig` row (`events` is a JSON-encoded list kept as its
raw string, as in the model). -/
structure WebhookConfig where
  id : Nat
  user_id : Nat
  url : String
  secret_key : Option String
  events : String
  active : Bool
  deriving Repr, DecidableEq

/-- Lower-case hexadecimal digit. -/
def hex_digit (n : Nat) : Char :=
  if n < 10 then Char.ofNat (48 + n) else Char.ofNat (87 + n)

/-- Four lower-case hex digits, as in a JSON `\uXXXX` escape. -/
def hex4 (n : Nat) : String :=
  String.mk [hex_digit (n / 4096 % 16), hex_digit (n / 256 % 16),
    hex_digit (n / 16 % 16), hex_digit (n % 16)]

/-- How `json.dumps` escapes one character inside a string literal
(code points above the BMP would need surrogate pairs; the embedded
payloads stay inside the BMP). -/
def json_escape_char (ensure_ascii : Bool) (c : Char) : String :=
  if c = Char.ofNat 34 then "\\\""
  else if c = Char.ofNat 92 then "\\\\"
  else if c = Char.ofNat 10 then "\\n"
  else if c = Char.ofNat 13 then "\\r"
  else if c = Char.ofNat 9 then "\\t"
  else if c.toNat = 8 then "\\b"
  else if c.toNat = 12 then "\\f"
  else if c.toNat < 32 then "\\u" ++ hex4 c.toNat
  else if ensure_ascii && 127 < c.toNat then "\\u" ++ hex4 c.toNat
  else String.singleton c

/-- A JSON string literal for `s` (double quotes around the escaped
characters); this is also exactly `json.dumps(s)` for a Python `str`. -/
def json_escape_string (ensure_ascii : Bool) (s : String) : String :=
  "\"" ++ String.join (s.toList.map (json_escape_char ensure_ascii)) ++ "\""

/-- Serialize one payload value (all webhook payload values are strings
or `None`). -/
def json_render_value (ensure_ascii : Bool) : Option String → String
  | none => "null"
  | some s => json_escape_string ensure_ascii s

/-- Code-point lexicographic order, as Python string comparison. -/
def chars_le : List Char → List Char → Bool
  | [], _ => true
  | _ :: _, [] => false
  | a :: as, b :: bs =>
      if a.toNat < b.toNat then true
      else if b.toNat < a.toNat then false
      else chars_le as bs

def str_le (a b : String) : Bool := chars_le a.toList b.toList

def insert_sorted_pair (p : String × Option String) :
    List (String × Option String) → List (String × Option String)
  | [] => [p]
  | q :: t => if str_le p.1 q.1 then p :: q :: t else q :: insert_sorted_pair p t

/-- Stable insertion sort by key, matching `sort_keys=True`. -/
def sort_pairs : List (String × Option String) → List (String × Option String)
  | [] => []
  | p :: t => insert_sorted_pair p (sort_pairs t)

/-- `json.dumps` of a flat string-keyed object, parameterized the way
the code (and its HTTP client) parameterize it: key order, separators,
`ensure_ascii`. -/
def json_dumps_obj (pairs : List (String × Option String)) (sort_keys : Bool)
    (item_sep key_sep : String) (ensure_ascii : Bool) : String :=
  let ps := if sort_keys then sort_pairs pairs else pairs
  "\x7b" ++ String.intercalate item_sep
      (ps.map (fun kv => json_escape_string ensure_ascii kv.1 ++ key_sep
        ++ json_render_value ensure_ascii kv.2))
    ++ "\x7d"

/-- The payload dict built by `WebhookService.send_webhook`, in its
Python insertion order.  `timestamp` is `created_at.isoformat()` when
set (the row carries the rendering), `from` falls back to the empty
string, `message_id` is `str(message.id)`. -/
def webhook_payload (message : SMSMessage) : List (String × Option String) :=
  [("event", some "sms_received"),
   ("from", some (message.from_number.getD "")),
   ("body", some message.body),
   ("timestamp", message.created_at),
   ("message_id", some (toString message.id))]

/-- The HTTP POST `send_webhook` would issue: target, content type, the
serialized body, and the `X-Webhook-Signature` header when a secret is
configured. -/
structure WebhookRequest where
  url : String
  content_type : String
  body : String
  signature : Option String
  deriving Repr, DecidableEq

inductive WebhookSendResult where
  | inactive
  | request (req : WebhookRequest)
  deriving Repr, DecidableEq

/-- `WebhookService.send_webhook` (`webhook_service.py:14-62`), up to
the network call.  `payload_json = json.dumps(payload, sort_keys=True,
separators=(",", ":"))`; the signature input is
`json.dumps(payload_json)` — the double-encoded string literal — and
the body actually posted is the HTTP client serialization of `payload`
(`client.post(url, json=payload)`: `json.dumps` with insertion key
order; separator whitespace varies across httpx versions, compact shown
here, and the key order alone separates it from `payload_json`).
`hmac_sha256_hex` is the `hmac`/`hashlib` library primitive. -/
def send_webhook (hmac_sha256_hex : String → String → String)
    (webhook : WebhookConfig) (message : SMSMessage) : WebhookSendResult :=
  if !webhook.active then .inactive
  else
    let payload := webhook_payload message
    let payload_json := json_dumps_obj payload true "," ":" true
    let signature : Option String :=
      match webhook.secret_key with
      | some key => some (hmac_sha256_hex key (json_escape_string true payload_json))
      | none => none
    .request
      { url := webhook.url, content_type := "application/json"
        body := json_dumps_obj payload false "," ":" false
        signature := signature }

/-- `WebhookService._generate_signature`: HMAC-SHA256 hex digest over
the given payload string. -/
def generate_signature (hmac_sha256_hex : String → String → String)
    (secret_key payload : String) : String :=
  hmac_sha256_hex secret_key payload

/-! ## ACK processing
(`app/services/sms_service.py:223-242`, `app/tasks/sms_tasks.py:162-184`,
`app/api/routes/android.py:93-116`) -/

/-- Python truthiness of an optional string (`if error_message:`). -/
def py_truthy_str : Option String → Bool
  | none => false
  | some s => !s.isEmpty

def find_message (messages : List SMSMessage) (message_id : Nat) :
    Option SMSMessage :=
  messages.find? (fun m => m.id == message_id)

/-- Committing a mutation of the message row fetched by id. -/
def update_message (messages : List SMSMessage) (message_id : Nat)
    (f : SMSMessage → SMSMessage) : List SMSMessage :=
  messages.map (fun m => if m.id == message_id then f m else m)

/-- Row mutation performed by `SMSService.process_sms_ack`: overwrite
`status`, set `error_message` when truthy, stamp `sent_at = now` when
the reported status is `sent`. -/
def process_sms_ack_row (ack_status : String) (error_message : Option String)
    (now : Int) (m : SMSMessage) : SMSMessage :=
  let m1 := { m with status := ack_status }
  let m2 := if py_truthy_str error_message then
      { m1 with error_message := error_message } else m1
  if ack_status == "sent" then { m2 with sent_at := some now } else m2

/-- `SMSService.process_sms_ack`: `False` when the row is missing, else
commit the overwritten row. -/
def process_sms_ack (messages : List SMSMessage) (message_id : Nat)
    (ack_status : String) (error_message : Option String) (now : Int) :
    List SMSMessage × Bool :=
  match find_message messages message_id with
  | none => (messages, false)
  | some _ =>
      (update_message messages message_id
        (process_sms_ack_row ack_status error_message now), true)

/-- Row mutation performed by the `update_message_status` task: like
`process_sms_ack_row` but also stamping `delivered_at` for
`delivered`. -/
def update_message_status_row (status_value : String)
    (error_message : Option String) (now : Int) (m : SMSMessage) : SMSMessage :=
  let m1 := { m with status := status_value }
  let m2 := if py_truthy_str error_message then
      { m1 with error_message := error_message } else m1
  if status_value == "sent" then { m2 with sent_at := some now }
  else if status_value == "delivered" then { m2 with delivered_at := some now }
  else m2

/-- `sms_tasks.update_message_status` (the task the websocket ACK branch
enqueues). -/
def update_message_status (messages : List SMSMessage) (message_id : Nat)
    (status_value : String) (error_message : Option String) (now : Int) :
    List SMSMessage × Bool :=
  match find_message messages message_id with
  | none => (messages, false)
  | some _ =>
      (update_message messages message_id
        (update_message_status_row status_value error_message now), true)

/-- The `message_id` field of an `sms_report` frame as the endpoint sees
it: absent (`TypeError` in `uuid.UUID`), present but unparsable
(`ValueError`), or a well-formed uuid together with its raw text. -/
inductive UuidInput where
  | missing
  | malformed (raw : String)
  | valid (id : Nat) (raw : String)
  deriving Repr, DecidableEq

/-- A JSON frame sent back to the agent (fields used by the
`sms_report` branch). -/
structure WsReply where
  type : String
  message : Option String
  message_id : Option String
  deriving Repr, DecidableEq

/-- The `sms_report` branch of the device websocket endpoint
(`android.py:93-116`): malformed ids draw an `error` frame and change
nothing; well-formed ids are looked up and the status-update task runs
only when the row exists and belongs to the reporting device
(the task effect is applied inline here, standing for the enqueued
`update_message_status`); in every well-formed case the reply is an
`ack` frame echoing the raw id. -/
def handle_sms_report (messages : List SMSMessage) (device : SMSDevice)
    (mid : UuidInput) (status_value : String) (error : Option String)
    (now : Int) : List SMSMessage × WsReply :=
  match mid with
  | .missing =>
      (messages, { type := "error", message := some "Invalid message_id"
                   message_id := none })
  | .malformed _ =>
      (messages, { type := "error", message := some "Invalid message_id"
                   message_id := none })
  | .valid id raw =>
      let ack_reply : WsReply :=
        { type := "ack", message := none, message_id := some raw }
      match find_message messages id with
      | some m =>
          if m.device_id == some device.id then
            ((update_message_status messages id status_value error now).1, ack_reply)
          else (messages, ack_reply)
      | none => (messages, ack_reply)

/-! # Theorems and claim verdicts -/

/-! ### Lemmas about the message-creation loop -/

theorem build_sms_messages_length (b : String) (bid : Option Nat) (u : Nat)
    (ds : List SMSDevice) (f : Nat → Nat) :
    ∀ (i : Nat) (rs : List String),
      (build_sms_messages b bid u ds f i rs).length = rs.length := by
  intro i rs
  induction rs generalizing i with
  | nil => rfl
  | cons r rs ih => simp [build_sms_messages, ih (i + 1)]

theorem build_sms_messages_get? (b : String) (bid : Option Nat) (u : Nat)
    (ds : List SMSDevice) (f : Nat → Nat) :
    ∀ (i j : Nat) (rs : List String),
      (build_sms_messages b bid u ds f i rs).get? j
        = (rs.get? j).map (fun r => build_sms_message b bid u ds f (i + j) r) := by
  intro i j rs
  induction rs generalizing i j with
  | nil => simp [build_sms_messages]
  | cons r rs ih =>
      cases j with
      | zero => simp [build_sms_messages]
      | succ j =>
          have harith : i + 1 + j = i + (j + 1) := by omega
          calc (build_sms_messages b bid u ds f i (r :: rs)).get? (j + 1)
              = (build_sms_messages b bid u ds f (i + 1) rs).get? j := rfl
            _ = (rs.get? j).map
                  (fun r2 => build_sms_message b bid u ds f (i + 1 + j) r2) :=
                ih (i + 1) j
            _ = ((r :: rs).get? (j + 1)).map
                  (fun r2 => build_sms_message b bid u ds f (i + (j + 1)) r2) := by
                rw [List.get?_cons_succ, harith]

theorem build_sms_message_common (b : String) (bid : Option Nat) (u : Nat)
    (ds : List SMSDevice) (f : Nat → Nat) (i : Nat) (r : String) :
    (build_sms_message b bid u ds f i r).user_id = u
    ∧ (build_sms_message b bid u ds f i r).body = b
    ∧ (build_sms_message b bid u ds f i r).batch_id = bid := by
  unfold build_sms_message
  cases ds.get? (i % ds.length) <;> exact ⟨rfl, rfl, rfl⟩

theorem mem_build_sms_messages (b : String) (bid : Option Nat) (u : Nat)
    (ds : List SMSDevice) (f : Nat → Nat) :
    ∀ (i : Nat) (rs : List String) (m : SMSMessage),
      m ∈ build_sms_messages b bid u ds f i rs →
        m.user_id = u ∧ m.body = b ∧ m.batch_id = bid := by
  intro i rs
  induction rs generalizing i with
  | nil => intro m hm; simp [build_sms_messages] at hm
  | cons r rs ih =>
      intro m hm
      rcases List.mem_cons.mp hm with hm | hm
      · subst hm; exact build_sms_message_common b bid u ds f i r
      · exact ih (i + 1) m hm

theorem build_sms_message_assigned (b : String) (bid : Option Nat) (u : Nat)
    (ds : List SMSDevice) (f : Nat → Nat) (i : Nat) (r : String) (d : SMSDevice)
    (h : ds.get? (i % ds.length) = some d) :
    (build_sms_message b bid u ds f i r).device_id = some d.id
    ∧ (build_sms_message b bid u ds f i r).status = "assigned" := by
  unfold build_sms_message
  rw [h]
  exact ⟨rfl, rfl⟩

theorem build_sms_message_queued (b : String) (bid : Option Nat) (u : Nat)
    (ds : List SMSDevice) (f : Nat → Nat) (i : Nat) (r : String)
    (h : ds.get? (i % ds.length) = none) :
    (build_sms_message b bid u ds f i r).device_id = none
    ∧ (build_sms_message b bid u ds f i r).status = "queued" := by
  unfold build_sms_message
  rw [h]
  exact ⟨rfl, rfl⟩

theorem get?_nonempty (ds : List SMSDevice) (i : Nat) (hne : ds ≠ []) :
    ∃ d, ds.get? (i % ds.length) = some d := by
  have hlen : 0 < ds.length := List.length_pos.mpr hne
  have hmod : i % ds.length < ds.length := Nat.mod_lt _ hlen
  rcases List.get?_eq_get hmod with h
  exact ⟨_, h⟩

theorem distribute_messages_go_get? (ds : List SMSDevice) :
    ∀ (i j : Nat) (ms : List SMSMessage),
      (distribute_messages_go ds i ms).get? j
        = (ms.get? j).map (fun m =>
            match ds.get? ((i + j) % ds.length) with
            | some device => { m with device_id := some device.id, status := "assigned" }
            | none => m) := by
  intro i j ms
  induction ms generalizing i j with
  | nil => simp [distribute_messages_go]
  | cons m ms ih =>
      cases j with
      | zero => simp [distribute_messages_go]
      | succ j =>
          have harith : i + 1 + j = i + (j + 1) := by omega
          calc (distribute_messages_go ds i (m :: ms)).get? (j + 1)
              = (distribute_messages_go ds (i + 1) ms).get? j := rfl
            _ = (ms.get? j).map (fun m2 =>
                  match ds.get? ((i + 1 + j) % ds.length) with
                  | some device =>
                      { m2 with device_id := some device.id, status := "assigned" }
                  | none => m2) := ih (i + 1) j
            _ = ((m :: ms).get? (j + 1)).map (fun m2 =>
                  match ds.get? ((i + (j + 1)) % ds.length) with
                  | some device =>
                      { m2 with device_id := some device.id, status := "assigned" }
                  | none => m2) := by rw [List.get?_cons_succ, harith]

/-- C1: a send request with recipient list `R` persists exactly `|R|`
`SMSMessage` rows for the sending user, all carrying the request body;
when `|R| > 1` they all share the one freshly generated `batch_id`, and
when `|R| = 1` the single row has `batch_id = none`
(`crud.create_sms_messages`, `app/crud.py:129-174`). -/
theorem claim_C1_bulk_send_rows (message_in : SMSMessageCreate) (user_id : Nat)
    (devices : List SMSDevice) (fresh_batch : Nat) (fresh_id : Nat → Nat)
    (db_messages : List SMSMessage)
    (hclean : db_messages.filter (fun m => m.user_id == user_id) = []) :
    ((db_messages ++ create_sms_messages message_in user_id devices fresh_batch fresh_id).filter
        (fun m => m.user_id == user_id)).length = message_in.recipients.length
    ∧ (∀ m ∈ create_sms_messages message_in user_id devices fresh_batch fresh_id,
        m.user_id = user_id ∧ m.body = message_in.body)
    ∧ (1 < message_in.recipients.length →
        ∀ m ∈ create_sms_messages message_in user_id devices fresh_batch fresh_id,
          m.batch_id = some fresh_batch)
    ∧ (message_in.recipients.length = 1 →
        ∀ m ∈ create_sms_messages message_in user_id devices fresh_batch fresh_id,
          m.batch_id = none) := by
  have hmem : ∀ m ∈ create_sms_messages message_in user_id devices fresh_batch fresh_id,
      m.user_id = user_id ∧ m.body = message_in.body ∧
        m.batch_id = (if 1 < message_in.recipients.length then some fresh_batch else none) := by
    intro m hm
    exact mem_build_sms_messages message_in.body _ user_id devices fresh_id 0
      message_in.recipients m hm
  refine ⟨?_, ?_, ?_, ?_⟩
  · rw [List.filter_append, hclean, List.nil_append]
    have hall : (create_sms_messages message_in user_id devices fresh_batch fresh_id).filter
        (fun m => m.user_id == user_id)
        = create_sms_messages message_in user_id devices fresh_batch fresh_id := by
      apply List.filter_eq_self.mpr
      intro m hm
      exact beq_iff_eq.mpr (hmem m hm).1
    rw [hall]
    exact build_sms_messages_length message_in.body _ user_id devices fresh_id 0
      message_in.recipients
  · intro m hm; exact ⟨(hmem m hm).1, (hmem m hm).2.1⟩
  · intro hgt m hm
    have := (hmem m hm).2.2
    rwa [if_pos hgt] at this
  · intro hone m hm
    have := (hmem m hm).2.2
    rwa [if_neg (by omega)] at this

theorem claim_C1_bulk_send_rows_witness :
    (([] : List SMSMessage).filter (fun m => m.user_id == 7) = [])
    ∧ ((([] : List SMSMessage) ++ create_sms_messages
          ⟨["a", "b", "c"], "hello", none⟩ 7 [] 99 (fun i => i)).filter
            (fun m => m.user_id == 7)).length = 3 :=
  ⟨rfl, (claim_C1_bulk_send_rows ⟨["a", "b", "c"], "hello", none⟩ 7 [] 99
      (fun i => i) [] rfl).1⟩

/-- C2: recipient-to-device assignment.  With a non-empty resolved
device list, the row created for recipient `i` (and likewise the `i`-th
message handed to `distribute_messages`) is assigned to
`devices[i % len(devices)]` with status `assigned`; with no devices the
created rows are `queued` with no device and `distribute_messages` is
the identity.  Both functions are pure functions of their arguments, so
the assignment is deterministic for a stable `devices` list
(`app/crud.py:142-170`, `app/services/sms_service.py:132-146`). -/
theorem claim_C2_device_assignment (message_in : SMSMessageCreate) (user_id : Nat)
    (devices : List SMSDevice) (fresh_batch : Nat) (fresh_id : Nat → Nat)
    (messages : List SMSMessage) :
    (devices ≠ [] →
      ∀ (i : Nat) (m : SMSMessage),
        (create_sms_messages message_in user_id devices fresh_batch fresh_id).get? i
            = some m →
          m.device_id = (devices.get? (i % devices.length)).map SMSDevice.id
          ∧ m.status = "assigned")
    ∧ (devices = [] →
      ∀ m ∈ create_sms_messages message_in user_id devices fresh_batch fresh_id,
        m.device_id = none ∧ m.status = "queued")
    ∧ (devices ≠ [] →
      ∀ (i : Nat) (m : SMSMessage),
        (distribute_messages messages devices).get? i = some m →
          m.device_id = (devices.get? (i % devices.length)).map SMSDevice.id
          ∧ m.status = "assigned")
    ∧ (devices = [] → distribute_messages messages devices = messages) := by
  refine ⟨?_, ?_, ?_, ?_⟩
  · intro hne i m hget
    rcases get?_nonempty devices i hne with ⟨d, hd⟩
    unfold create_sms_messages at hget
    rw [build_sms_messages_get?] at hget
    cases hr : message_in.recipients.get? i with
    | none => rw [hr] at hget; exact Option.noConfusion hget
    | some r =>
        rw [hr] at hget
        have hb : build_sms_message message_in.body
            (if 1 < message_in.recipients.length then some fresh_batch else none)
            user_id devices fresh_id (0 + i) r = m := Option.some.inj hget
        simp only [Nat.zero_add] at hb
        have hprops := build_sms_message_assigned message_in.body
          (if 1 < message_in.recipients.length then some fresh_batch else none)
          user_id devices fresh_id i r d hd
        rw [hb] at hprops
        exact ⟨by rw [hprops.1, hd]; rfl, hprops.2⟩
  · intro hempty m hm
    subst hempty
    unfold create_sms_messages at hm
    -- in the empty-device case every position yields the queued row
    have : ∀ (i : Nat) (rs : List String) (m : SMSMessage),
        m ∈ build_sms_messages message_in.body
              (if 1 < message_in.recipients.length then some fresh_batch else none)
              user_id [] fresh_id i rs →
          m.device_id = none ∧ m.status = "queued" := by
      intro i rs
      induction rs generalizing i with
      | nil => intro m hm2; simp [build_sms_messages] at hm2
      | cons r rs ih =>
          intro m hm2
          rcases List.mem_cons.mp hm2 with hm2 | hm2
          · subst hm2
            exact build_sms_message_queued message_in.body _ user_id [] fresh_id i r rfl
          · exact ih (i + 1) m hm2
    exact this 0 message_in.recipients m hm
  · intro hne i m hget
    rcases get?_nonempty devices i hne with ⟨d, hd⟩
    unfold distribute_messages at hget
    rw [if_neg (by simpa [List.isEmpty_iff] using hne)] at hget
    rw [distribute_messages_go_get? devices 0 i messages] at hget
    cases hm0 : messages.get? i with
    | none => rw [hm0] at hget; exact Option.noConfusion hget
    | some m0 =>
        rw [hm0] at hget
        have hb : (match devices.get? ((0 + i) % devices.length) with
            | some device =>
                { m0 with device_id := some device.id, status := "assigned" }
            | none => m0) = m := Option.some.inj hget
        simp only [Nat.zero_add] at hb
        rw [hd] at hb
        exact ⟨by rw [← hb, hd]; rfl, by rw [← hb]⟩
  · intro hempty
    subst hempty
    unfold distribute_messages
    rfl

theorem claim_C2_device_assignment_witness :
    (⟨1, 7, some 92, some 99, "b", none, "x", "assigned", "outgoing", none, false,
        none, none, none⟩ : SMSMessage).device_id
        = (([⟨91, 7, "online"⟩, ⟨92, 7, "online"⟩] : List SMSDevice).get?
            (1 % ([⟨91, 7, "online"⟩, ⟨92, 7, "online"⟩] : List SMSDevice).length)).map
            SMSDevice.id
    ∧ (⟨1, 7, some 92, some 99, "b", none, "x", "assigned", "outgoing", none, false,
        none, none, none⟩ : SMSMessage).status = "assigned" :=
  (claim_C2_device_assignment ⟨["a", "b", "c"], "x", none⟩ 7
      [⟨91, 7, "online"⟩, ⟨92, 7, "online"⟩] 99 (fun i => i) []).1
    (by decide) 1
    ⟨1, 7, some 92, some 99, "b", none, "x", "assigned", "outgoing", none, false,
      none, none, none⟩ (by decide)

/-! ### Lemmas about keyed updates -/

theorem find_quota_update (qs : List UserQuota) (u : Nat) (f : UserQuota → UserQuota)
    (hf : ∀ q, (f q).user_id = q.user_id) :
    find_quota (update_quota qs u f) u = (find_quota qs u).map f := by
  induction qs with
  | nil => rfl
  | cons q qs ih =>
      unfold update_quota find_quota
      unfold update_quota find_quota at ih
      by_cases h : (q.user_id == u) = true
      · have hfq : ((f q).user_id == u) = true := by rw [hf q]; exact h
        rw [List.map_cons, if_pos h, List.find?_cons, List.find?_cons, hfq, h]
        rfl
      · rw [Bool.not_eq_true] at h
        have hniff : ¬((q.user_id == u) = true) := by
          rw [h]; exact Bool.false_ne_true
        rw [List.map_cons, if_neg hniff, List.find?_cons, List.find?_cons, h]
        exact ih

theorem create_sms_messages_length (message_in : SMSMessageCreate) (user_id : Nat)
    (devices : List SMSDevice) (fresh_batch : Nat) (fresh_id : Nat → Nat) :
    (create_sms_messages message_in user_id devices fresh_batch fresh_id).length
      = message_in.recipients.length :=
  build_sms_messages_length message_in.body _ user_id devices fresh_id 0
    message_in.recipients

/-- C3: quota reservation on the bulk-send route.  When
`sms_sent_this_month + n` exceeds the plan cap the request fails with
the 429 quota payload (`error`, `limit`, `used`, `available`,
`reset_date`, `upgrade_url`) and the store is returned untouched — no
message row is written and the counter keeps its value; otherwise the
check passes, `n` rows are written and the counter grows by exactly `n`
(`quota_service.py:68-95`, `api/routes/sms.py:60-97`). -/
theorem claim_C3_quota_check_and_increment (s : Settings) (db : Db) (user_id : Nat)
    (bulk : SMSBulkCreate) (now : PyDateTime) (fresh_plan_id fresh_batch : Nat)
    (fresh_id : Nat → Nat) (usr : User) (q : UserQuota) (p : UserPlan)
    (hu : find_user db.users user_id = some usr)
    (hq : find_quota db.quotas user_id = some q)
    (hp : find_plan db.plans q.plan_id = some p) :
    (q.sms_sent_this_month + (bulk.recipients.length : Int) > p.max_sms_per_month →
      send_bulk_sms s db user_id bulk now fresh_plan_id fresh_batch fresh_id
        = (db, .error (.quotaExceeded 429
            { error := "quota_exceeded"
              message := "Solo puedes enviar "
                ++ toString (p.max_sms_per_month - q.sms_sent_this_month)
                ++ " SMS más este mes"
              quota_type := "sms_monthly"
              limit := p.max_sms_per_month
              used := q.sms_sent_this_month
              available := p.max_sms_per_month - q.sms_sent_this_month
              reset_date := q.last_reset_date.map (calculate_reset_date s)
              upgrade_url := "/api/v1/sms/plans" })))
    ∧ (q.sms_sent_this_month + (bulk.recipients.length : Int) ≤ p.max_sms_per_month →
      (send_bulk_sms s db user_id bulk now fresh_plan_id fresh_batch fresh_id).1.messages.length
          = db.messages.length + bulk.recipients.length
      ∧ find_quota
          (send_bulk_sms s db user_id bulk now fresh_plan_id fresh_batch fresh_id).1.quotas
          user_id
          = some { q with sms_sent_this_month :=
              q.sms_sent_this_month + (bulk.recipients.length : Int) }
      ∧ (send_bulk_sms s db user_id bulk now fresh_plan_id fresh_batch fresh_id).2
          = .ok { total_recipients := bulk.recipients.length
                  message_ids := (create_sms_messages
                      ⟨bulk.recipients, bulk.body, bulk.device_id⟩ user_id []
                      fresh_batch fresh_id).map SMSMessage.id }) := by
  constructor
  · intro hover
    have hchk : check_sms_quota s db user_id (bulk.recipients.length : Int) now
        fresh_plan_id
        = (db, .error (.quotaExceeded 429
            { error := "quota_exceeded"
              message := "Solo puedes enviar "
                ++ toString (p.max_sms_per_month - q.sms_sent_this_month)
                ++ " SMS más este mes"
              quota_type := "sms_monthly"
              limit := p.max_sms_per_month
              used := q.sms_sent_this_month
              available := p.max_sms_per_month - q.sms_sent_this_month
              reset_date := q.last_reset_date.map (calculate_reset_date s)
              upgrade_url := "/api/v1/sms/plans" })) := by
      simp only [check_sms_quota, get_or_create_quota, hu, hq, hp]
      rw [if_pos hover]
    simp only [send_bulk_sms, hchk]
  · intro hle
    have hnot : ¬ (q.sms_sent_this_month + (bulk.recipients.length : Int)
        > p.max_sms_per_month) := not_lt.mpr hle
    have hchk : check_sms_quota s db user_id (bulk.recipients.length : Int) now
        fresh_plan_id = (db, .ok true) := by
      simp only [check_sms_quota, get_or_create_quota, hu, hq, hp]
      rw [if_neg hnot]
    have hrun : send_bulk_sms s db user_id bulk now fresh_plan_id fresh_batch fresh_id
        = ({ db with
              messages := db.messages ++ create_sms_messages
                ⟨bulk.recipients, bulk.body, bulk.device_id⟩ user_id [] fresh_batch
                fresh_id
              quotas := (update_quota db.quotas user_id (fun q2 =>
                { q2 with sms_sent_this_month :=
                    q2.sms_sent_this_month + (bulk.recipients.length : Int) })) },
            .ok { total_recipients := bulk.recipients.length
                  message_ids := (create_sms_messages
                      ⟨bulk.recipients, bulk.body, bulk.device_id⟩ user_id []
                      fresh_batch fresh_id).map SMSMessage.id }) := by
      simp only [send_bulk_sms, hchk, increment_sms_count, get_or_create_quota, hu, hq]
    refine ⟨?_, ?_, ?_⟩
    · rw [hrun]
      simp only [List.length_append, create_sms_messages_length]
    · rw [hrun]
      have hupd := find_quota_update db.quotas user_id (fun q2 =>
        { q2 with sms_sent_this_month :=
            q2.sms_sent_this_month + (bulk.recipients.length : Int) }) (fun _ => rfl)
      rw [show ({ db with
              messages := db.messages ++ create_sms_messages
                ⟨bulk.recipients, bulk.body, bulk.device_id⟩ user_id [] fresh_batch
                fresh_id
              quotas := (update_quota db.quotas user_id (fun q2 =>
                { q2 with sms_sent_this_month :=
                    q2.sms_sent_this_month + (bulk.recipients.length : Int) })) } : Db).quotas
          = update_quota db.quotas user_id (fun q2 =>
              { q2 with sms_sent_this_month :=
                  q2.sms_sent_this_month + (bulk.recipients.length : Int) }) from rfl,
        hupd, hq]
      rfl
    · rw [hrun]

theorem claim_C3_quota_check_and_increment_witness :
    send_bulk_sms ⟨1, "free"⟩
        ⟨[⟨7, false⟩], [⟨1, "Pro", 50, 5, 10, 100⟩], [⟨7, 1, 48, 1, some ⟨2025, 1, 1, 0⟩⟩],
          [], []⟩
        7 ⟨["a", "b", "c"], "hi", none⟩ ⟨2025, 2, 1, 0⟩ 1000 99 (fun i => i)
      = (⟨[⟨7, false⟩], [⟨1, "Pro", 50, 5, 10, 100⟩],
            [⟨7, 1, 48, 1, some ⟨2025, 1, 1, 0⟩⟩], [], []⟩,
          .error (.quotaExceeded 429
            { error := "quota_exceeded"
              message := "Solo puedes enviar "
                ++ toString ((50 : Int) - 48)
                ++ " SMS más este mes"
              quota_type := "sms_monthly"
              limit := 50
              used := 48
              available := (50 : Int) - 48
              reset_date := (some (⟨2025, 1, 1, 0⟩ : PyDateTime)).map
                (calculate_reset_date ⟨1, "free"⟩)
              upgrade_url := "/api/v1/sms/plans" })) :=
  (claim_C3_quota_check_and_increment ⟨1, "free"⟩
      ⟨[⟨7, false⟩], [⟨1, "Pro", 50, 5, 10, 100⟩], [⟨7, 1, 48, 1, some ⟨2025, 1, 1, 0⟩⟩],
        [], []⟩
      7 ⟨["a", "b", "c"], "hi", none⟩ ⟨2025, 2, 1, 0⟩ 1000 99 (fun i => i)
      ⟨7, false⟩ ⟨7, 1, 48, 1, some ⟨2025, 1, 1, 0⟩⟩ ⟨1, "Pro", 50, 5, 10, 100⟩
      rfl rfl rfl).1 (by decide)

/-- C5: processing a renewal for an ACTIVE, non-canceling, authorized
subscription.  A successful charge yields a COMPLETED payment carrying
the provider transaction id and the period
`[old current_period_end, old current_period_end + 30/365 days]`, and
shifts the subscription period accordingly; a failed charge yields a
FAILED payment and marks the subscription PAST_DUE
(`subscription_service.py:423-509`). -/
theorem claim_C5_process_renewal (sub : Subscription) (plan : UserPlan)
    (charge : ChargeResult) (provider_name : String) (fresh_payment_id : Nat)
    (wall_clock : Int)
    (hprov : sub.provider_user_uuid ≠ none)
    (hact : sub.status = SubscriptionStatus.active)
    (hcap : sub.cancel_at_period_end = false) :
    (charge.success = true →
      process_renewal sub plan charge provider_name fresh_payment_id wall_clock
        = .processed
            { sub with
                current_period_start := sub.current_period_end
                current_period_end := sub.current_period_end
                  + renewal_period_days sub.billing_cycle }
            { id := fresh_payment_id, subscription_id := sub.id
              amount := renewal_amount plan sub.billing_cycle, currency := "USD"
              status := PaymentStatus.completed, provider := provider_name
              provider_transaction_id := charge.transaction_id
              period_start := sub.current_period_end
              period_end := sub.current_period_end
                + renewal_period_days sub.billing_cycle
              paid_at := some wall_clock })
    ∧ (charge.success = false →
      process_renewal sub plan charge provider_name fresh_payment_id wall_clock
        = .processed { sub with status := SubscriptionStatus.past_due }
            { id := fresh_payment_id, subscription_id := sub.id
              amount := renewal_amount plan sub.billing_cycle, currency := "USD"
              status := PaymentStatus.failed, provider := provider_name
              provider_transaction_id := none
              period_start := sub.current_period_end
              period_end := sub.current_period_end
                + renewal_period_days sub.billing_cycle
              paid_at := none }) := by
  have h2 : ¬(sub.status ≠ SubscriptionStatus.active) := fun hne => hne hact
  have h3 : ¬(sub.cancel_at_period_end = true) := by
    rw [hcap]; exact Bool.false_ne_true
  constructor
  · intro hsucc
    unfold process_renewal
    rw [if_neg hprov, if_neg h2, if_neg h3, if_pos hsucc]
  · intro hfail
    have hnot : ¬(charge.success = true) := by rw [hfail]; exact Bool.false_ne_true
    unfold process_renewal
    rw [if_neg hprov, if_neg h2, if_neg h3, if_neg hnot]

theorem claim_C5_process_renewal_witness :
    process_renewal
        ⟨1, 7, 1, BillingCycle.monthly, SubscriptionStatus.active, false,
          some "prov-uuid", 100, 130⟩
        ⟨1, "Pro", 1000, 5, 10, 100⟩ ⟨true, some "tx9"⟩ "qvapay" 55 999
      = .processed
          ⟨1, 7, 1, BillingCycle.monthly, SubscriptionStatus.active, false,
            some "prov-uuid", 130, 160⟩
          ⟨55, 1, 10, "USD", PaymentStatus.completed, "qvapay", some "tx9",
            130, 160, some 999⟩ :=
  (claim_C5_process_renewal
      ⟨1, 7, 1, BillingCycle.monthly, SubscriptionStatus.active, false,
        some "prov-uuid", 100, 130⟩
      ⟨1, "Pro", 1000, 5, 10, 100⟩ ⟨true, some "tx9"⟩ "qvapay" 55 999
      (by decide) rfl rfl).1 rfl

set_option maxRecDepth 100000 in
/-- C6: the claim fails on the code.  `send_webhook` builds
`payload_json` (sorted keys, minimal separators) but then (a) posts
`json=payload`, whose client-side serialization keeps the insertion key
order — already different from `payload_json` under any separator
convention — and (b) signs `json.dumps(payload_json)`, the JSON string
literal that double-encodes `payload_json`, which differs from both the
posted body and `payload_json` itself.  So the signature is not the
HMAC of the POSTed body and a receiver recomputing it over the body
cannot match.  Evaluated here on a concrete inbound message and a
webhook with secret `topsecret`. -/
theorem claim_C6_signature_input_mismatch :
    ∀ hmac_sha256_hex : String → String → String,
      send_webhook hmac_sha256_hex
          ⟨5, 7, "https://example.com/hook", some "topsecret",
            "[\"sms_received\"]", true⟩
          ⟨77, 7, none, none, "", some "+1555", "ping", "received", "incoming",
            none, false, some "2025-01-01T00:00:00+00:00", none, none⟩
        = .request
            { url := "https://example.com/hook"
              content_type := "application/json"
              body := json_dumps_obj (webhook_payload
                ⟨77, 7, none, none, "", some "+1555", "ping", "received",
                  "incoming", none, false, some "2025-01-01T00:00:00+00:00",
                  none, none⟩) false "," ":" false
              signature := some (hmac_sha256_hex "topsecret"
                (json_escape_string true (json_dumps_obj (webhook_payload
                  ⟨77, 7, none, none, "", some "+1555", "ping", "received",
                    "incoming", none, false, some "2025-01-01T00:00:00+00:00",
                    none, none⟩) true "," ":" true))) }
      ∧ (json_escape_string true (json_dumps_obj (webhook_payload
            ⟨77, 7, none, none, "", some "+1555", "ping", "received", "incoming",
              none, false, some "2025-01-01T00:00:00+00:00", none, none⟩)
            true "," ":" true)
          ≠ json_dumps_obj (webhook_payload
            ⟨77, 7, none, none, "", some "+1555", "ping", "received", "incoming",
              none, false, some "2025-01-01T00:00:00+00:00", none, none⟩)
            false "," ":" false)
      ∧ (json_dumps_obj (webhook_payload
            ⟨77, 7, none, none, "", some "+1555", "ping", "received", "incoming",
              none, false, some "2025-01-01T00:00:00+00:00", none, none⟩)
            false "," ":" false
          ≠ json_dumps_obj (webhook_payload
            ⟨77, 7, none, none, "", some "+1555", "ping", "received", "incoming",
              none, false, some "2025-01-01T00:00:00+00:00", none, none⟩)
            true "," ":" true)
      ∧ (json_dumps_obj (webhook_payload
            ⟨77, 7, none, none, "", some "+1555", "ping", "received", "incoming",
              none, false, some "2025-01-01T00:00:00+00:00", none, none⟩)
            false ", " ": " true
          ≠ json_dumps_obj (webhook_payload
            ⟨77, 7, none, none, "", some "+1555", "ping", "received", "incoming",
              none, false, some "2025-01-01T00:00:00+00:00", none, none⟩)
            true "," ":" true)
      ∧ (json_escape_string true (json_dumps_obj (webhook_payload
            ⟨77, 7, none, none, "", some "+1555", "ping", "received", "incoming",
              none, false, some "2025-01-01T00:00:00+00:00", none, none⟩)
            true "," ":" true)
          ≠ json_dumps_obj (webhook_payload
            ⟨77, 7, none, none, "", some "+1555", "ping", "received", "incoming",
              none, false, some "2025-01-01T00:00:00+00:00", none, none⟩)
            false ", " ": " true) :=
  fun _ => ⟨rfl, by decide, by decide, by decide, by decide⟩

/-! ### Lemmas about keyed message updates -/

theorem find_message_update (ms : List SMSMessage) (mid : Nat)
    (f : SMSMessage → SMSMessage) (hf : ∀ m, (f m).id = m.id) :
    find_message (update_message ms mid f) mid = (find_message ms mid).map f := by
  induction ms with
  | nil => rfl
  | cons m ms ih =>
      unfold update_message find_message
      unfold update_message find_message at ih
      by_cases h : (m.id == mid) = true
      · have hfm : ((f m).id == mid) = true := by rw [hf m]; exact h
        rw [List.map_cons, if_pos h, List.find?_cons, List.find?_cons, hfm, h]
        rfl
      · rw [Bool.not_eq_true] at h
        have hniff : ¬((m.id == mid) = true) := by
          rw [h]; exact Bool.false_ne_true
        rw [List.map_cons, if_neg hniff, List.find?_cons, List.find?_cons, h]
        exact ih

theorem update_message_status_row_id (status_value : String)
    (error_message : Option String) (now : Int) (m : SMSMessage) :
    (update_message_status_row status_value error_message now m).id = m.id := by
  unfold update_message_status_row
  cases hh : py_truthy_str error_message <;>
    cases hs : (status_value == "sent") <;>
    cases hd : (status_value == "delivered") <;>
    simp [hh, hs, hd]

theorem process_sms_ack_row_id (ack_status : String)
    (error_message : Option String) (now : Int) (m : SMSMessage) :
    (process_sms_ack_row ack_status error_message now m).id = m.id := by
  unfold process_sms_ack_row
  cases hh : py_truthy_str error_message <;>
    cases hs : (ack_status == "sent") <;>
    simp [hh, hs]

/-- C7 fails as stated: re-delivering an already-processed
`(message_id, sent)` ACK does not leave the row unchanged — both ACK
handlers rewrite `sent_at` to the re-processing time.  Here the row was
stamped `sent_at = 100` and the re-delivered ACK at time 200 changes
it. -/
theorem claim_C7_counterexample :
    (update_message_status
        [⟨1, 7, some 5, none, "+1", none, "hi", "sent", "outgoing", none, false,
          none, some 100, none⟩] 1 "sent" none 200).1
      ≠ [⟨1, 7, some 5, none, "+1", none, "hi", "sent", "outgoing", none, false,
          none, some 100, none⟩]
    ∧ (process_sms_ack
        [⟨1, 7, some 5, none, "+1", none, "hi", "sent", "outgoing", none, false,
          none, some 100, none⟩] 1 "sent" none 200).1
      ≠ [⟨1, 7, some 5, none, "+1", none, "hi", "sent", "outgoing", none, false,
          none, some 100, none⟩] := by
  exact ⟨by decide, by decide⟩

/-- C7 amended: both ACK handlers overwrite the fetched row
unconditionally — the status becomes the reported status even from a
terminal state — and re-delivering a processed `(message_id, sent)` ACK
changes exactly `sent_at`, which is re-stamped to the current
processing time (`sms_service.py:223-242`, `sms_tasks.py:162-184`). -/
theorem claim_C7_ack_redelivery (messages : List SMSMessage) (mid : Nat)
    (m : SMSMessage) (st : String) (err : Option String) (now : Int) :
    (find_message messages mid = some m →
      find_message (update_message_status messages mid st err now).1 mid
          = some (update_message_status_row st err now m)
      ∧ find_message (process_sms_ack messages mid st err now).1 mid
          = some (process_sms_ack_row st err now m)
      ∧ (update_message_status_row st err now m).status = st
      ∧ (process_sms_ack_row st err now m).status = st)
    ∧ (m.status = "sent" → err = none →
      update_message_status_row "sent" err now m = { m with sent_at := some now }
      ∧ process_sms_ack_row "sent" err now m = { m with sent_at := some now }) := by
  constructor
  · intro hfind
    have h1 : update_message_status messages mid st err now
        = (update_message messages mid (update_message_status_row st err now),
            true) := by
      unfold update_message_status
      rw [hfind]
    have h2 : process_sms_ack messages mid st err now
        = (update_message messages mid (process_sms_ack_row st err now), true) := by
      unfold process_sms_ack
      rw [hfind]
    refine ⟨?_, ?_, ?_, ?_⟩
    · rw [h1]
      rw [find_message_update messages mid _
        (update_message_status_row_id st err now), hfind]
      rfl
    · rw [h2]
      rw [find_message_update messages mid _
        (process_sms_ack_row_id st err now), hfind]
      rfl
    · unfold update_message_status_row
      cases hh : py_truthy_str err <;>
        cases hs : (st == "sent") <;>
        cases hd : (st == "delivered") <;>
        simp [hh, hs, hd]
    · unfold process_sms_ack_row
      cases hh : py_truthy_str err <;>
        cases hs : (st == "sent") <;>
        simp [hh, hs]
  · intro hst herr
    subst herr
    constructor
    · unfold update_message_status_row
      simp only [py_truthy_str, Bool.false_eq_true, if_false]
      rw [if_pos (by rfl)]
      cases m
      simp_all
    · unfold process_sms_ack_row
      simp only [py_truthy_str, Bool.false_eq_true, if_false]
      rw [if_pos (by rfl)]
      cases m
      simp_all

theorem claim_C7_ack_redelivery_witness :
    find_message (update_message_status
        [⟨1, 7, some 5, none, "+1", none, "hi", "sent", "outgoing", none, false,
          none, some 100, none⟩] 1 "sent" none 200).1 1
      = some (update_message_status_row "sent" none 200
          ⟨1, 7, some 5, none, "+1", none, "hi", "sent", "outgoing", none, false,
            none, some 100, none⟩)
    ∧ find_message (process_sms_ack
        [⟨1, 7, some 5, none, "+1", none, "hi", "sent", "outgoing", none, false,
          none, some 100, none⟩] 1 "sent" none 200).1 1
      = some (process_sms_ack_row "sent" none 200
          ⟨1, 7, some 5, none, "+1", none, "hi", "sent", "outgoing", none, false,
            none, some 100, none⟩) :=
  have h := (claim_C7_ack_redelivery
      [⟨1, 7, some 5, none, "+1", none, "hi", "sent", "outgoing", none, false,
        none, some 100, none⟩] 1
      ⟨1, 7, some 5, none, "+1", none, "hi", "sent", "outgoing", none, false,
        none, some 100, none⟩ "sent" none 200).1 rfl
  ⟨h.1, h.2.1⟩

/-- C8 fails as stated: a well-formed `message_id` that is unknown, or
that belongs to another device, is indeed dropped with no database
change, but the endpoint answers it with an `ack` frame, not an `error`
frame (`android.py:93-116`: the `error` reply is sent only for an
unparsable id).  Message 9 belongs to device 6 while device 5 reports
it; id 42 matches nothing. -/
theorem claim_C8_counterexample :
    (handle_sms_report
        [⟨9, 7, some 6, none, "+1", none, "hi", "sending", "outgoing", none,
          false, none, none, none⟩] ⟨5, 7, "online"⟩ (.valid 9 "9") "sent" none
        100).2.type = "ack"
    ∧ ("ack" : String) ≠ "error"
    ∧ (handle_sms_report
        [⟨9, 7, some 6, none, "+1", none, "hi", "sending", "outgoing", none,
          false, none, none, none⟩] ⟨5, 7, "online"⟩ (.valid 9 "9") "sent" none
        100).1
      = [⟨9, 7, some 6, none, "+1", none, "hi", "sending", "outgoing", none,
          false, none, none, none⟩]
    ∧ (handle_sms_report
        [⟨9, 7, some 6, none, "+1", none, "hi", "sending", "outgoing", none,
          false, none, none, none⟩] ⟨5, 7, "online"⟩ (.valid 42 "42") "sent" none
        100).2.type = "ack"
    ∧ (handle_sms_report
        [⟨9, 7, some 6, none, "+1", none, "hi", "sending", "outgoing", none,
          false, none, none, none⟩] ⟨5, 7, "online"⟩ (.valid 42 "42") "sent" none
        100).1
      = [⟨9, 7, some 6, none, "+1", none, "hi", "sending", "outgoing", none,
          false, none, none, none⟩] := by
  exact ⟨rfl, by decide, by decide, rfl, by decide⟩

/-- C8 amended: an `sms_report` whose well-formed `message_id` is
unknown or belongs to another device is dropped — no database change,
no back-propagated failure — and acknowledged with an `ack` frame
echoing the raw id; the `error` frame is reserved for a missing or
unparsable `message_id`, which likewise changes nothing
(`android.py:93-116`). -/
theorem claim_C8_unknown_report_dropped (messages : List SMSMessage)
    (device : SMSDevice) (id : Nat) (raw : String) (st : String)
    (err : Option String) (now : Int) :
    (find_message messages id = none →
      handle_sms_report messages device (.valid id raw) st err now
        = (messages, { type := "ack", message := none, message_id := some raw }))
    ∧ (∀ m, find_message messages id = some m → m.device_id ≠ some device.id →
      handle_sms_report messages device (.valid id raw) st err now
        = (messages, { type := "ack", message := none, message_id := some raw }))
    ∧ handle_sms_report messages device .missing st err now
        = (messages, { type := "error", message := some "Invalid message_id"
                       message_id := none })
    ∧ handle_sms_report messages device (.malformed raw) st err now
        = (messages, { type := "error", message := some "Invalid message_id"
                       message_id := none }) := by
  refine ⟨?_, ?_, rfl, rfl⟩
  · intro hnone
    unfold handle_sms_report
    simp only [hnone]
  · intro m hsome hne
    have hbeq : (m.device_id == some device.id) = false := by
      rw [beq_eq_false_iff_ne]
      exact hne
    unfold handle_sms_report
    simp only [hsome, hbeq, Bool.false_eq_true, if_false]

theorem claim_C8_unknown_report_dropped_witness :
    handle_sms_report
        [⟨9, 7, some 6, none, "+1", none, "hi", "sending", "outgoing", none,
          false, none, none, none⟩] ⟨5, 7, "online"⟩ (.valid 42 "42") "sent" none
        100
      = ([⟨9, 7, some 6, none, "+1", none, "hi", "sending", "outgoing", none,
          false, none, none, none⟩],
          { type := "ack", message := none, message_id := some "42" }) :=
  (claim_C8_unknown_report_dropped
      [⟨9, 7, some 6, none, "+1", none, "hi", "sending", "outgoing", none,
        false, none, none, none⟩] ⟨5, 7, "online"⟩ 42 "42" "sent" none 100).1
    rfl

/-- C9 fails against the configuration: both reset sweeps hard-code
`last_reset_date.day == 1` although the configuration exposes
`QUOTA_RESET_DAY` (used by the user-facing `reset_date` computation and
announced by the in-line comment of the task).  With
`QUOTA_RESET_DAY = 15`: a quota whose `last_reset_date.day` equals the
configured day 15 is left untouched (counter stays 5), while a quota
with day 1 — different from the configured day — is zeroed and
re-stamped (`sms_service.py:329-345`, `sms_tasks.py:245-263`,
`core/config.py:110`). -/
theorem claim_C9_reset_day_hardcoded :
    (({ QUOTA_RESET_DAY := 15, DEFAULT_PLAN := "free" } : Settings).QUOTA_RESET_DAY
        = 15)
    ∧ (⟨2025, 3, 15, 0⟩ : PyDateTime).day
        = ({ QUOTA_RESET_DAY := 15, DEFAULT_PLAN := "free" } : Settings).QUOTA_RESET_DAY
    ∧ reset_monthly_quotas
        ⟨[], [], [⟨7, 1, 5, 0, some ⟨2025, 3, 15, 0⟩⟩], [], []⟩ ⟨2025, 4, 1, 9⟩
      = ⟨[], [], [⟨7, 1, 5, 0, some ⟨2025, 3, 15, 0⟩⟩], [], []⟩
    ∧ ((1 : Int)
        ≠ ({ QUOTA_RESET_DAY := 15, DEFAULT_PLAN := "free" } : Settings).QUOTA_RESET_DAY)
    ∧ (reset_monthly_quotas
        ⟨[], [], [⟨8, 1, 5, 0, some ⟨2025, 3, 1, 0⟩⟩], [], []⟩ ⟨2025, 4, 1, 9⟩).quotas
      = [⟨8, 1, 0, 0, some ⟨2025, 4, 1, 9⟩⟩] := by
  exact ⟨rfl, rfl, by decide, by decide, by decide⟩

/-! ### Lemmas about the reset sweep rows -/

theorem find_quota_map (qs : List UserQuota) (u : Nat) (g : UserQuota → UserQuota)
    (hg : ∀ q, (g q).user_id = q.user_id) :
    find_quota (qs.map g) u = (find_quota qs u).map g := by
  induction qs with
  | nil => rfl
  | cons q qs ih =>
      unfold find_quota
      unfold find_quota at ih
      by_cases h : (q.user_id == u) = true
      · have hgq : ((g q).user_id == u) = true := by rw [hg q]; exact h
        rw [List.map_cons, List.find?_cons, List.find?_cons, hgq, h]
        rfl
      · rw [Bool.not_eq_true] at h
        have hgq : ((g q).user_id == u) = false := by rw [hg q]; exact h
        rw [List.map_cons, List.find?_cons, List.find?_cons, hgq, h]
        exact ih

theorem reset_monthly_quota_row_user_id (now : PyDateTime) (q : UserQuota) :
    (reset_monthly_quota_row now q).user_id = q.user_id := by
  unfold reset_monthly_quota_row
  split
  · split <;> rfl
  · rfl

theorem reset_monthly_quota_row_devices (now : PyDateTime) (q : UserQuota) :
    (reset_monthly_quota_row now q).devices_registered = q.devices_registered := by
  unfold reset_monthly_quota_row
  split
  · split <;> rfl
  · rfl

/-- C10: `devices_registered` never goes negative.
`decrement_device_count` is a no-op at zero and subtracts exactly one
when positive; `increment_device_count` adds exactly one; the SMS
counter bump, the monthly reset and the subscription-activation quota
update leave the device counter untouched; and the counter stays
non-negative through decrement whenever it was
(`quota_service.py:130-145`). -/
theorem claim_C10_devices_registered_nonnegative (s : Settings) (db : Db)
    (user_id : Nat) (now : PyDateTime) (fresh_plan_id : Nat) (usr : User)
    (q : UserQuota)
    (hu : find_user db.users user_id = some usr)
    (hq : find_quota db.quotas user_id = some q) :
    (q.devices_registered ≤ 0 →
      decrement_device_count s db user_id now fresh_plan_id = (db, .ok ()))
    ∧ (0 < q.devices_registered →
      find_quota (decrement_device_count s db user_id now fresh_plan_id).1.quotas
          user_id
        = some { q with devices_registered := q.devices_registered - 1 })
    ∧ find_quota (increment_device_count s db user_id now fresh_plan_id).1.quotas
          user_id
        = some { q with devices_registered := q.devices_registered + 1 }
    ∧ (∀ count : Int,
        find_quota
            (increment_sms_count s db user_id count now fresh_plan_id).1.quotas
            user_id
          = some { q with sms_sent_this_month := q.sms_sent_this_month + count })
    ∧ (find_quota (reset_monthly_quotas db now).quotas user_id).map
          UserQuota.devices_registered = some q.devices_registered
    ∧ (∀ plan_id2,
        (find_quota (update_user_quota db user_id plan_id2 now).quotas user_id).map
          UserQuota.devices_registered = some q.devices_registered)
    ∧ (0 ≤ q.devices_registered →
        ∀ q2,
          find_quota (decrement_device_count s db user_id now fresh_plan_id).1.quotas
              user_id = some q2 →
          0 ≤ q2.devices_registered) := by
  have hdec_le : q.devices_registered ≤ 0 →
      decrement_device_count s db user_id now fresh_plan_id = (db, .ok ()) := by
    intro hle
    unfold decrement_device_count get_or_create_quota
    simp only [hu, hq]
    rw [if_neg (not_lt.mpr hle)]
  have hdec_pos : 0 < q.devices_registered →
      find_quota (decrement_device_count s db user_id now fresh_plan_id).1.quotas
          user_id
        = some { q with devices_registered := q.devices_registered - 1 } := by
    intro hpos
    have hrun : decrement_device_count s db user_id now fresh_plan_id
        = ({ db with quotas := (update_quota db.quotas user_id
            (fun q2 => { q2 with devices_registered := q2.devices_registered - 1 })) },
          .ok ()) := by
      unfold decrement_device_count get_or_create_quota
      simp only [hu, hq]
      rw [if_pos hpos]
    rw [hrun]
    rw [show ({ db with quotas := (update_quota db.quotas user_id
        (fun q2 => { q2 with devices_registered := q2.devices_registered - 1 })) }
          : Db).quotas
      = update_quota db.quotas user_id
          (fun q2 => { q2 with devices_registered := q2.devices_registered - 1 })
      from rfl]
    rw [find_quota_update db.quotas user_id
      (fun q2 => { q2 with devices_registered := q2.devices_registered - 1 })
      (fun _ => rfl), hq]
    rfl
  refine ⟨hdec_le, hdec_pos, ?_, ?_, ?_, ?_, ?_⟩
  · have hrun : increment_device_count s db user_id now fresh_plan_id
        = ({ db with quotas := (update_quota db.quotas user_id
            (fun q2 => { q2 with devices_registered := q2.devices_registered + 1 })) },
          .ok ()) := by
      unfold increment_device_count get_or_create_quota
      simp only [hu, hq]
    rw [hrun]
    rw [show ({ db with quotas := (update_quota db.quotas user_id
        (fun q2 => { q2 with devices_registered := q2.devices_registered + 1 })) }
          : Db).quotas
      = update_quota db.quotas user_id
          (fun q2 => { q2 with devices_registered := q2.devices_registered + 1 })
      from rfl]
    rw [find_quota_update db.quotas user_id
      (fun q2 => { q2 with devices_registered := q2.devices_registered + 1 })
      (fun _ => rfl), hq]
    rfl
  · intro count
    have hrun : increment_sms_count s db user_id count now fresh_plan_id
        = ({ db with quotas := (update_quota db.quotas user_id
            (fun q2 => { q2 with sms_sent_this_month :=
                q2.sms_sent_this_month + count })) }, .ok ()) := by
      unfold increment_sms_count get_or_create_quota
      simp only [hu, hq]
    rw [hrun]
    rw [show ({ db with quotas := (update_quota db.quotas user_id
        (fun q2 => { q2 with sms_sent_this_month :=
            q2.sms_sent_this_month + count })) } : Db).quotas
      = update_quota db.quotas user_id
          (fun q2 => { q2 with sms_sent_this_month :=
              q2.sms_sent_this_month + count })
      from rfl]
    rw [find_quota_update db.quotas user_id
      (fun q2 => { q2 with sms_sent_this_month := q2.sms_sent_this_month + count })
      (fun _ => rfl), hq]
    rfl
  · rw [show (reset_monthly_quotas db now).quotas
        = db.quotas.map (reset_monthly_quota_row now) from rfl]
    rw [find_quota_map db.quotas user_id (reset_monthly_quota_row now)
      (reset_monthly_quota_row_user_id now), hq]
    rw [show Option.map UserQuota.devices_registered
        (Option.map (reset_monthly_quota_row now) (some q))
      = some ((reset_monthly_quota_row now q).devices_registered) from rfl]
    rw [reset_monthly_quota_row_devices]
  · intro plan_id2
    have hrun : update_user_quota db user_id plan_id2 now
        = { db with quotas := (update_quota db.quotas user_id (fun q2 =>
            { q2 with plan_id := plan_id2, sms_sent_this_month := 0
                      last_reset_date := some now })) } := by
      unfold update_user_quota
      rw [hq]
    rw [hrun]
    rw [show ({ db with quotas := (update_quota db.quotas user_id (fun q2 =>
        { q2 with plan_id := plan_id2, sms_sent_this_month := 0
                  last_reset_date := some now })) } : Db).quotas
      = update_quota db.quotas user_id (fun q2 =>
          { q2 with plan_id := plan_id2, sms_sent_this_month := 0
                    last_reset_date := some now })
      from rfl]
    rw [find_quota_update db.quotas user_id (fun q2 =>
      { q2 with plan_id := plan_id2, sms_sent_this_month := 0
                last_reset_date := some now }) (fun _ => rfl), hq]
    rfl
  · intro h0 q2 hfind2
    by_cases hpos : 0 < q.devices_registered
    · rw [hdec_pos hpos] at hfind2
      have : q2 = { q with devices_registered := q.devices_registered - 1 } :=
        (Option.some.inj hfind2).symm
      rw [this]
      have : (0 : Int) ≤ q.devices_registered - 1 := by omega
      exact this
    · have hle : q.devices_registered ≤ 0 := not_lt.mp hpos
      rw [hdec_le hle] at hfind2
      have hq2 : q2 = q := by
        rw [show ((db, (Except.ok () : Except ApiError Unit)) :
            Db × Except ApiError Unit).1.quotas = db.quotas from rfl] at hfind2
        rw [hq] at hfind2
        exact (Option.some.inj hfind2).symm
      rw [hq2]
      exact h0

theorem claim_C10_devices_registered_nonnegative_witness :
    decrement_device_count ⟨1, "free"⟩
        ⟨[⟨7, false⟩], [⟨1, "Pro", 50, 5, 10, 100⟩], [⟨7, 1, 3, 0, none⟩], [], []⟩
        7 ⟨2025, 2, 1, 0⟩ 1000
      = (⟨[⟨7, false⟩], [⟨1, "Pro", 50, 5, 10, 100⟩], [⟨7, 1, 3, 0, none⟩], [], []⟩,
          .ok ()) :=
  (claim_C10_devices_registered_nonnegative ⟨1, "free"⟩
      ⟨[⟨7, false⟩], [⟨1, "Pro", 50, 5, 10, 100⟩], [⟨7, 1, 3, 0, none⟩], [], []⟩
      7 ⟨2025, 2, 1, 0⟩ 1000 ⟨7, false⟩ ⟨7, 1, 3, 0, none⟩ rfl rfl).1 (by decide)

/-! ### Lemmas for the quota invariant -/

theorem send_bulk_sms_denied_eq (s : Settings) (db : Db) (user_id : Nat)
    (bulk : SMSBulkCreate) (now : PyDateTime) (fresh_plan_id fresh_batch : Nat)
    (fresh_id : Nat → Nat) (usr : User) (q : UserQuota) (p : UserPlan)
    (hu : find_user db.users user_id = some usr)
    (hq : find_quota db.quotas user_id = some q)
    (hp : find_plan db.plans q.plan_id = some p)
    (hover : q.sms_sent_this_month + (bulk.recipients.length : Int)
      > p.max_sms_per_month) :
    send_bulk_sms s db user_id bulk now fresh_plan_id fresh_batch fresh_id
      = (db, .error (.quotaExceeded 429
          { error := "quota_exceeded"
            message := "Solo puedes enviar "
              ++ toString (p.max_sms_per_month - q.sms_sent_this_month)
              ++ " SMS más este mes"
            quota_type := "sms_monthly"
            limit := p.max_sms_per_month
            used := q.sms_sent_this_month
            available := p.max_sms_per_month - q.sms_sent_this_month
            reset_date := q.last_reset_date.map (calculate_reset_date s)
            upgrade_url := "/api/v1/sms/plans" })) := by
  have hchk : check_sms_quota s db user_id (bulk.recipients.length : Int) now
      fresh_plan_id
      = (db, .error (.quotaExceeded 429
          { error := "quota_exceeded"
            message := "Solo puedes enviar "
              ++ toString (p.max_sms_per_month - q.sms_sent_this_month)
              ++ " SMS más este mes"
            quota_type := "sms_monthly"
            limit := p.max_sms_per_month
            used := q.sms_sent_this_month
            available := p.max_sms_per_month - q.sms_sent_this_month
            reset_date := q.last_reset_date.map (calculate_reset_date s)
            upgrade_url := "/api/v1/sms/plans" })) := by
    simp only [check_sms_quota, get_or_create_quota, hu, hq, hp]
    rw [if_pos hover]
  simp only [send_bulk_sms, hchk]

theorem send_bulk_sms_granted_eq (s : Settings) (db : Db) (user_id : Nat)
    (bulk : SMSBulkCreate) (now : PyDateTime) (fresh_plan_id fresh_batch : Nat)
    (fresh_id : Nat → Nat) (usr : User) (q : UserQuota) (p : UserPlan)
    (hu : find_user db.users user_id = some usr)
    (hq : find_quota db.quotas user_id = some q)
    (hp : find_plan db.plans q.plan_id = some p)
    (hle : q.sms_sent_this_month + (bulk.recipients.length : Int)
      ≤ p.max_sms_per_month) :
    send_bulk_sms s db user_id bulk now fresh_plan_id fresh_batch fresh_id
      = ({ db with
            messages := db.messages ++ create_sms_messages
              ⟨bulk.recipients, bulk.body, bulk.device_id⟩ user_id [] fresh_batch
              fresh_id
            quotas := (update_quota db.quotas user_id (fun q2 =>
              { q2 with sms_sent_this_month :=
                  q2.sms_sent_this_month + (bulk.recipients.length : Int) })) },
          .ok { total_recipients := bulk.recipients.length
                message_ids := (create_sms_messages
                    ⟨bulk.recipients, bulk.body, bulk.device_id⟩ user_id []
                    fresh_batch fresh_id).map SMSMessage.id }) := by
  have hnot : ¬ (q.sms_sent_this_month + (bulk.recipients.length : Int)
      > p.max_sms_per_month) := not_lt.mpr hle
  have hchk : check_sms_quota s db user_id (bulk.recipients.length : Int) now
      fresh_plan_id = (db, .ok true) := by
    simp only [check_sms_quota, get_or_create_quota, hu, hq, hp]
    rw [if_neg hnot]
  simp only [send_bulk_sms, hchk, increment_sms_count, get_or_create_quota, hu, hq]

theorem mem_update_quota (qs : List UserQuota) (u : Nat) (f : UserQuota → UserQuota)
    (q2 : UserQuota) (h : q2 ∈ update_quota qs u f) :
    ∃ q1, q1 ∈ qs ∧
      (((q1.user_id == u) = true ∧ q2 = f q1)
        ∨ ((q1.user_id == u) = false ∧ q2 = q1)) := by
  unfold update_quota at h
  rcases List.mem_map.mp h with ⟨q1, h1, heq⟩
  by_cases hk : (q1.user_id == u) = true
  · exact ⟨q1, h1, Or.inl ⟨hk, by rw [← heq, if_pos hk]⟩⟩
  · rw [Bool.not_eq_true] at hk
    refine ⟨q1, h1, Or.inr ⟨hk, ?_⟩⟩
    rw [← heq, if_neg (by rw [hk]; exact Bool.false_ne_true)]

theorem find_quota_unique (qs : List UserQuota) (u : Nat) (q : UserQuota)
    (hkeys : ∀ a ∈ qs, ∀ b ∈ qs, a.user_id = b.user_id → a = b)
    (hfind : find_quota qs u = some q) :
    ∀ q1 ∈ qs, (q1.user_id == u) = true → q1 = q := by
  intro q1 h1 hk
  have hfind2 := hfind
  unfold find_quota at hfind2
  have hmemq : q ∈ qs := List.mem_of_find?_eq_some hfind2
  have hkq := List.find?_some hfind2
  exact hkeys q1 h1 q hmemq (by rw [eq_of_beq hk, eq_of_beq hkq])

theorem reset_monthly_quota_row_cases (now : PyDateTime) (q : UserQuota) :
    reset_monthly_quota_row now q = q
    ∨ reset_monthly_quota_row now q
        = { q with sms_sent_this_month := 0, last_reset_date := some now } := by
  unfold reset_monthly_quota_row
  split
  · split
    · right; rfl
    · left; rfl
  · left; rfl

/-- C4 fails as stated: `PUT /sms/quota/upgrade` re-points the quota at
the target plan while carrying the monthly counter over, so changing to
a plan whose cap is below the current usage leaves
`sms_sent_this_month > max_sms_per_month`.  Concretely: usage 100 on
the Pro plan (cap 1000) satisfies the invariant; a superuser upgrade to
the Free plan (cap 50) commits a quota with 100 > 50
(`api/routes/sms.py:183-222`). -/
theorem claim_C4_counterexample :
    quota_invariant
      ⟨[⟨7, true⟩], [⟨1, "Pro", 1000, 5, 10, 100⟩, ⟨2, "Free", 50, 1, 0, 0⟩],
        [⟨7, 1, 100, 0, none⟩], [], []⟩
    ∧ (upgrade_plan ⟨1, "free"⟩
        ⟨[⟨7, true⟩], [⟨1, "Pro", 1000, 5, 10, 100⟩, ⟨2, "Free", 50, 1, 0, 0⟩],
          [⟨7, 1, 100, 0, none⟩], [], []⟩
        ⟨7, true⟩ ⟨2⟩ ⟨2025, 2, 1, 0⟩ 1000).2 = .ok "Free"
    ∧ ¬ quota_invariant (upgrade_plan ⟨1, "free"⟩
        ⟨[⟨7, true⟩], [⟨1, "Pro", 1000, 5, 10, 100⟩, ⟨2, "Free", 50, 1, 0, 0⟩],
          [⟨7, 1, 100, 0, none⟩], [], []⟩
        ⟨7, true⟩ ⟨2⟩ ⟨2025, 2, 1, 0⟩ 1000).1 := by
  refine ⟨?_, rfl, ?_⟩
  · intro q hqm p hp
    have hq2 : q = ⟨7, 1, 100, 0, none⟩ := by simpa using hqm
    subst hq2
    have hp2 : (⟨1, "Pro", 1000, 5, 10, 100⟩ : UserPlan) = p := Option.some.inj hp
    rw [← hp2]
    decide
  · intro hinv
    have hmem : (⟨7, 2, 100, 0, none⟩ : UserQuota) ∈ (upgrade_plan ⟨1, "free"⟩
        ⟨[⟨7, true⟩], [⟨1, "Pro", 1000, 5, 10, 100⟩, ⟨2, "Free", 50, 1, 0, 0⟩],
          [⟨7, 1, 100, 0, none⟩], [], []⟩
        ⟨7, true⟩ ⟨2⟩ ⟨2025, 2, 1, 0⟩ 1000).1.quotas := by
      rw [show (upgrade_plan ⟨1, "free"⟩
          ⟨[⟨7, true⟩], [⟨1, "Pro", 1000, 5, 10, 100⟩, ⟨2, "Free", 50, 1, 0, 0⟩],
            [⟨7, 1, 100, 0, none⟩], [], []⟩
          ⟨7, true⟩ ⟨2⟩ ⟨2025, 2, 1, 0⟩ 1000).1.quotas
        = [⟨7, 2, 100, 0, none⟩] from rfl]
      exact List.mem_singleton.mpr rfl
    have hple : (100 : Int) ≤ 50 :=
      hinv ⟨7, 2, 100, 0, none⟩ hmem ⟨2, "Free", 50, 1, 0, 0⟩ rfl
    exact absurd hple (by decide)

/-- C4 amended: `sms_sent_this_month ≤ max_sms_per_month` (for the plan
the quota points to) is preserved at the send commit point (the 429
branch writes nothing and the granted branch stays within the cap it
just checked), by the monthly reset and by the subscription-activation
quota update (both write a zero counter); the plan-upgrade commit point
preserves it only when the current counter fits under the target plan
cap, because the route carries the counter over unchanged.  Key
uniqueness of quota rows and non-negative plan caps are the schema
assumptions (`UserQuota.user_id` is unique; caps are sizes). -/
theorem claim_C4_invariant_commit_points (s : Settings) (db : Db) (user_id : Nat)
    (bulk : SMSBulkCreate) (now : PyDateTime) (fresh_plan_id fresh_batch : Nat)
    (fresh_id : Nat → Nat) (usr : User) (q : UserQuota) (p : UserPlan)
    (hkeys : ∀ a ∈ db.quotas, ∀ b ∈ db.quotas, a.user_id = b.user_id → a = b)
    (hpos : ∀ p2 ∈ db.plans, 0 ≤ p2.max_sms_per_month)
    (hu : find_user db.users user_id = some usr)
    (hq : find_quota db.quotas user_id = some q)
    (hp : find_plan db.plans q.plan_id = some p)
    (hinv : quota_invariant db) :
    quota_invariant (send_bulk_sms s db user_id bulk now fresh_plan_id fresh_batch
        fresh_id).1
    ∧ quota_invariant (reset_monthly_quotas db now)
    ∧ (∀ plan_id2, quota_invariant (update_user_quota db user_id plan_id2 now))
    ∧ (∀ (target : PlanUpgrade) (pt : UserPlan),
        find_plan db.plans target.plan_id = some pt →
        q.sms_sent_this_month ≤ pt.max_sms_per_month →
        quota_invariant (upgrade_plan s db usr target now fresh_plan_id).1) := by
  refine ⟨?_, ?_, ?_, ?_⟩
  · by_cases hover : q.sms_sent_this_month + (bulk.recipients.length : Int)
        > p.max_sms_per_month
    · rw [send_bulk_sms_denied_eq s db user_id bulk now fresh_plan_id fresh_batch
        fresh_id usr q p hu hq hp hover]
      exact hinv
    · have hle := not_lt.mp hover
      rw [send_bulk_sms_granted_eq s db user_id bulk now fresh_plan_id fresh_batch
        fresh_id usr q p hu hq hp hle]
      intro q2 hq2 p2 hp2
      have hq2b : q2 ∈ update_quota db.quotas user_id (fun q3 =>
          { q3 with sms_sent_this_month :=
              q3.sms_sent_this_month + (bulk.recipients.length : Int) }) := hq2
      have hp2b : find_plan db.plans q2.plan_id = some p2 := hp2
      rcases mem_update_quota _ _ _ _ hq2b with ⟨q1, h1, hcase⟩
      rcases hcase with ⟨hk, heq⟩ | ⟨hk, heq⟩
      · have hq1 : q1 = q := find_quota_unique db.quotas user_id q hkeys hq q1 h1 hk
        rw [hq1] at heq
        subst heq
        have hpid : find_plan db.plans q.plan_id = some p2 := hp2b
        rw [hp] at hpid
        have hpp : p = p2 := Option.some.inj hpid
        rw [← hpp]
        exact hle
      · rw [heq] at hp2b
        rw [heq]
        exact hinv q1 h1 p2 hp2b
  · intro q2 hq2 p2 hp2
    have hq2b : q2 ∈ db.quotas.map (reset_monthly_quota_row now) := hq2
    have hp2b : find_plan db.plans q2.plan_id = some p2 := hp2
    rcases List.mem_map.mp hq2b with ⟨q1, h1, heq⟩
    rcases reset_monthly_quota_row_cases now q1 with hcase | hcase
    · rw [hcase] at heq
      subst heq
      exact hinv q1 h1 p2 hp2b
    · rw [hcase] at heq
      subst heq
      have hmp : p2 ∈ db.plans := List.mem_of_find?_eq_some hp2b
      exact hpos p2 hmp
  · intro plan_id2
    have hrun : update_user_quota db user_id plan_id2 now
        = { db with quotas := (update_quota db.quotas user_id (fun q2 =>
            { q2 with plan_id := plan_id2, sms_sent_this_month := 0
                      last_reset_date := some now })) } := by
      unfold update_user_quota
      rw [hq]
    rw [hrun]
    intro q2 hq2 p2 hp2
    have hq2b : q2 ∈ update_quota db.quotas user_id (fun q3 =>
        { q3 with plan_id := plan_id2, sms_sent_this_month := 0
                  last_reset_date := some now }) := hq2
    have hp2b : find_plan db.plans q2.plan_id = some p2 := hp2
    rcases mem_update_quota _ _ _ _ hq2b with ⟨q1, h1, hcase⟩
    rcases hcase with ⟨hk, heq⟩ | ⟨hk, heq⟩
    · subst heq
      have hmp : p2 ∈ db.plans := List.mem_of_find?_eq_some hp2b
      exact hpos p2 hmp
    · rw [heq] at hp2b
      rw [heq]
      exact hinv q1 h1 p2 hp2b
  · intro target pt hpt hfit
    by_cases hsup : usr.is_superuser = true
    · have hbne : (!usr.is_superuser) = false := by rw [hsup]; rfl
      have hu2 := hu
      unfold find_user at hu2
      have hubeq := List.find?_some hu2
      have husr : usr.id = user_id := eq_of_beq hubeq
      have hrun : upgrade_plan s db usr target now fresh_plan_id
          = ({ db with quotas := (update_quota db.quotas usr.id (fun q2 =>
              { q2 with plan_id := target.plan_id })) }, .ok pt.name) := by
        unfold upgrade_plan
        rw [hbne]
        simp only [Bool.false_eq_true, if_false]
        rw [hpt]
        rw [husr, hq]
      rw [hrun]
      intro q2 hq2 p2 hp2
      have hq2b : q2 ∈ update_quota db.quotas usr.id (fun q3 =>
          { q3 with plan_id := target.plan_id }) := hq2
      have hp2b : find_plan db.plans q2.plan_id = some p2 := hp2
      rcases mem_update_quota _ _ _ _ hq2b with ⟨q1, h1, hcase⟩
      rcases hcase with ⟨hk, heq⟩ | ⟨hk, heq⟩
      · rw [husr] at hk
        have hq1 : q1 = q := find_quota_unique db.quotas user_id q hkeys hq q1 h1 hk
        rw [hq1] at heq
        subst heq
        have hpid : find_plan db.plans target.plan_id = some p2 := hp2b
        rw [hpt] at hpid
        have hpp : pt = p2 := Option.some.inj hpid
        rw [← hpp]
        exact hfit
      · rw [heq] at hp2b
        rw [heq]
        exact hinv q1 h1 p2 hp2b
    · rw [Bool.not_eq_true] at hsup
      have hbne : (!usr.is_superuser) = true := by rw [hsup]; rfl
      have hrun : upgrade_plan s db usr target now fresh_plan_id
          = (db, .error (.httpDetail 403
              "The user does not have enough privileges")) := by
        unfold upgrade_plan
        rw [hbne]
        rfl
      rw [hrun]
      exact hinv

theorem claim_C4_invariant_commit_points_witness :
    quota_invariant
      (send_bulk_sms ⟨1, "free"⟩
        ⟨[⟨7, false⟩], [⟨1, "Pro", 50, 5, 10, 100⟩], [⟨7, 1, 48, 1, none⟩], [], []⟩
        7 ⟨["a"], "hi", none⟩ ⟨2025, 2, 1, 0⟩ 1000 99 (fun i => i)).1 :=
  (claim_C4_invariant_commit_points ⟨1, "free"⟩
      ⟨[⟨7, false⟩], [⟨1, "Pro", 50, 5, 10, 100⟩], [⟨7, 1, 48, 1, none⟩], [], []⟩
      7 ⟨["a"], "hi", none⟩ ⟨2025, 2, 1, 0⟩ 1000 99 (fun i => i)
      ⟨7, false⟩ ⟨7, 1, 48, 1, none⟩ ⟨1, "Pro", 50, 5, 10, 100⟩
      (by decide) (by decide) rfl rfl rfl
      (by
        intro q hqm p hp
        have hq2 : q = ⟨7, 1, 48, 1, none⟩ := by simpa using hqm
        subst hq2
        have hpp : (⟨1, "Pro", 50, 5, 10, 100⟩ : UserPlan) = p := Option.some.inj hp
        rw [← hpp]
        decide)).1

end Ender
